import Mathlib

/-!
# creport: crash report builder

A shallow embedding of `stratosphere/creport/source/creport_crash_report.cpp`
(`CrashReport::IsAddressReadable`, `HandleAttachProcess`, `HandleException`,
`ProcessDyingMessage`, `ProcessExceptions`, `BuildReport`) and of the data
declared in `creport_thread_info.hpp`.

* `u64` values are natural numbers; every `u64` addition of the source is
  written with an explicit `% 2 ^ 64`.
* The kernel is an oracle `Kernel`: each supervisor call answers as a function
  of the calls issued before it (`Sys.calls`, oldest first), so the answers may
  differ from call to call, and the list of calls is the observable trace.
* A method of `CrashReport` is a function from the system state `Sys` (the
  report object together with the trace) to the next state.
-/

namespace Creport

/-! ## libnx constants -/

/-- Permission bit `Perm_R` of libnx. -/
def Perm_R : Nat := 1

/-- Permission bit `Perm_W` of libnx. -/
def Perm_W : Nat := 2

/-- Permission bit `Perm_X` of libnx. -/
def Perm_X : Nat := 4

/-- Permission value `Perm_Rw` of libnx: `Perm_R | Perm_W`. -/
def Perm_Rw : Nat := Perm_R ||| Perm_W

/-- Handle value `INVALID_HANDLE` of libnx. -/
def INVALID_HANDLE : Nat := 0

/-- The libnx test `R_FAILED(rc)`: a result code other than zero. -/
def R_FAILED (rc : Nat) : Bool := rc != 0

/-- The libnx test `R_SUCCEEDED(rc)`. -/
def R_SUCCEEDED (rc : Nat) : Bool := rc == 0

/-- The libnx region descriptor filled in by `svcQueryDebugProcessMemory`
(`addr` and `size` are `u64`, the others `u32`). -/
structure MemoryInfo where
  addr : Nat
  size : Nat
  type : Nat
  attr : Nat
  perm : Nat
  deriving DecidableEq, Repr

/-! ## Data of `creport_thread_info.hpp` -/

/-- The two words of an `FpuReg`. -/
structure FpuReg where
  lo : Nat
  hi : Nat
  deriving DecidableEq, Repr

/-- The register block `DebugThreadContext`; `x` holds the `0x20` general
registers, of which `fp`, `lr` and `sp` are numbers 29, 30 and 31. -/
structure DebugThreadContext where
  x : List Nat
  pc : Nat
  psr : Nat
  fpu_reg : List FpuReg
  fpcr : Nat
  fpsr : Nat
  tpidr : Nat
  deriving DecidableEq, Repr

/-- The member `lr` of the anonymous union of `DebugThreadContext`. -/
def DebugThreadContext.lr (c : DebugThreadContext) : Nat := c.x.getD 30 0

/-- The class `ThreadInfo`. -/
structure ThreadInfo where
  context : DebugThreadContext
  thread_id : Nat
  stack_top : Nat
  stack_bottom : Nat
  stack_trace : List Nat
  stack_trace_size : Nat
  deriving DecidableEq, Repr

/-- The accessor `ThreadInfo::GetPC`. -/
def ThreadInfo.GetPC (t : ThreadInfo) : Nat := t.context.pc

/-- The accessor `ThreadInfo::GetLR`. -/
def ThreadInfo.GetLR (t : ThreadInfo) : Nat := t.context.lr

/-- The class `ThreadList`. -/
structure ThreadList where
  thread_count : Nat
  thread_infos : List ThreadInfo
  deriving DecidableEq, Repr

/-- The value `ThreadInfo()` built by the constructor: everything zero. -/
def ThreadInfo.empty : ThreadInfo :=
  { context := { x := List.replicate 32 0, pc := 0, psr := 0, fpu_reg := [],
                 fpcr := 0, fpsr := 0, tpidr := 0 },
    thread_id := 0, stack_top := 0, stack_bottom := 0, stack_trace := [],
    stack_trace_size := 0 }

/-- The value `ThreadList()` built by the constructor: no thread. -/
def ThreadList.empty : ThreadList := { thread_count := 0, thread_infos := [] }

/-! ## Data of `creport_debug_types.hpp` and `creport_code_info.hpp` -/

/-- Modelled from the spec: `AttachProcessInfo` is declared in
`creport_debug_types.hpp`, which is not available. The code reads `title_id`
and `user_exception_context_address`; the spec lists, for ProcessInfo, a
process identifier, a title identifier, the 32/64-bit addressing mode and the
application-vs-system classification. -/
structure AttachProcessInfo where
  title_id : Nat
  process_id : Nat
  is_64_bit : Bool
  is_application : Bool
  user_exception_context_address : Nat
  deriving DecidableEq, Repr

/-- Modelled from the spec: the enumeration `DebugExceptionType` is declared
in `creport_debug_types.hpp`, which is not available; its enumerators are the
case labels of `HandleException`. `other n` is a value that is none of them
(the `default:` label). -/
inductive DebugExceptionType where
  | UndefinedInstruction
  | InstructionAbort
  | DataAbort
  | AlignmentFault
  | DebuggerAttached
  | BreakPoint
  | UserBreak
  | DebuggerBreak
  | BadSvc
  | UnknownNine
  | other (n : Nat)
  deriving DecidableEq, Repr

/-- Modelled from the spec: the union `specific` of `ExceptionInfo` is declared
in `creport_debug_types.hpp`, which is not available. The code accesses two of
its members, `raw` and `user_break.address`; they are kept as two fields. -/
structure SpecificExceptionInfo where
  raw : Nat
  user_break_address : Nat
  deriving DecidableEq, Repr

/-- Modelled from the spec: `ExceptionInfo` is declared in
`creport_debug_types.hpp`, which is not available: the fault kind, the fault
address and the kind-specific fields. -/
structure ExceptionInfo where
  type : DebugExceptionType
  address : Nat
  specific : SpecificExceptionInfo
  deriving DecidableEq, Repr

/-- Modelled from the spec: the enumeration `DebugEventType` is declared in
`creport_debug_types.hpp`, which is not available; its enumerators are the
case labels of `ProcessExceptions`, `other n` any other value. -/
inductive DebugEventType where
  | AttachProcess
  | AttachThread
  | ExitProcess
  | ExitThread
  | Exception
  | other (n : Nat)
  deriving DecidableEq, Repr

/-- Modelled from the spec: the union `info` of `DebugEventInfo`, of which the
code reads the members `attach_process` and `exception`. -/
structure DebugInfo where
  attach_process : AttachProcessInfo
  exception : ExceptionInfo
  deriving DecidableEq, Repr

/-- Modelled from the spec: `DebugEventInfo` is declared in
`creport_debug_types.hpp`, which is not available: the event kind, the thread
the event is about, and the event's data. -/
structure DebugEventInfo where
  type : DebugEventType
  thread_id : Nat
  info : DebugInfo
  deriving DecidableEq, Repr

/-- Modelled from the spec: the class `CodeList` is declared in
`creport_code_info.hpp`, which is not available; the code regions found around
the faulting program counter and link register. -/
structure CodeList where
  regions : List (Nat × Nat)
  deriving DecidableEq, Repr

/-! ## The report object -/

/-- The data members of `CrashReport`, as the methods use them;
`dying_message` is the payload buffer, one number per byte. -/
structure CrashReport where
  debug_handle : Nat
  has_extra_info : Bool
  result : Nat
  process_info : AttachProcessInfo
  dying_message_address : Nat
  dying_message_size : Nat
  dying_message : List Nat
  exception_info : ExceptionInfo
  crashed_thread_info : ThreadInfo
  code_list : CodeList
  thread_list : ThreadList
  deriving DecidableEq, Repr

/-- Modelled from the spec: the constants and the inline predicate of
`creport_crash_report.hpp`, which is not available, that the methods use: the
enumerators of `CrashReportResult` (one fixed result code per fault kind),
`sizeof(this->dying_message)` (the fixed payload capacity) and
`WasSuccessful()` (whether a fault was classified as handled). -/
structure Header where
  UndefinedInstruction : Nat
  InstructionAbort : Nat
  DataAbort : Nat
  AlignmentFault : Nat
  UserBreak : Nat
  BadSvc : Nat
  UnknownNine : Nat
  dying_message_capacity : Nat
  WasSuccessful : CrashReport → Bool

/-- Modelled from the spec: `CrashReport::IsOpen()` is defined in
`creport_crash_report.hpp`, which is not available: the report holds a debug
session. -/
def IsOpen (r : CrashReport) : Bool := r.debug_handle != INVALID_HANDLE

/-- Modelled from the spec: `CrashReport::IsApplication()` is defined in
`creport_crash_report.hpp`, which is not available: the application-vs-system
classification of the attached process. -/
def IsApplication (r : CrashReport) : Bool := r.process_info.is_application

/-- Modelled from the spec: `CrashReport::Is64Bit()` is defined in
`creport_crash_report.hpp`, which is not available: the addressing mode of the
attached process. -/
def Is64Bit (r : CrashReport) : Bool := r.process_info.is_64_bit

/-! ## The kernel and the trace of its calls -/

/-- One call that leaves the report builder: a supervisor call, or a call of a
capture component whose code is elsewhere. -/
inductive Call where
  | svcDebugActiveProcess (pid : Nat)
  | svcGetDebugEvent (h : Nat)
  | svcQueryDebugProcessMemory (h : Nat) (addr : Nat)
  | svcReadDebugProcessMemory (h : Nat) (addr : Nat) (size : Nat)
  | svcCloseHandle (h : Nat)
  | ReadFromProcess (h : Nat) (thread_id : Nat) (is_64_bit : Bool)
  | ReadCodeRegionsFromProcess (h : Nat) (pc : Nat) (lr : Nat)
  | ReadThreadsFromProcess (h : Nat) (is_64_bit : Bool)
  deriving DecidableEq, Repr

/-- Modelled from the spec: the debug API of the kernel and the capture
components, none of which is available. Every answer is a function of the calls
issued so far.

* `kernelAbove500` is the capability predicate.
* `svcDebugActiveProcess` answers a session handle or fails (`none`).
* `svcGetDebugEvent` and `svcQueryDebugProcessMemory` answer a result code
  together with the contents left in the output structure.
* `svcReadDebugProcessMemory` answers the bytes read (byte `i` of the range at
  index `i`) or fails (`none`); a failed read writes nothing.
* `ReadFromProcess`, `ReadCodeRegionsFromProcess`, `ReadThreadsFromProcess`
  answer the new value of the object they are called on. -/
structure Kernel where
  kernelAbove500 : Bool
  svcDebugActiveProcess : List Call → Nat → Option Nat
  svcGetDebugEvent : List Call → Nat → Nat × DebugEventInfo
  svcQueryDebugProcessMemory : List Call → Nat → Nat → Nat × MemoryInfo
  svcReadDebugProcessMemory : List Call → Nat → Nat → Nat → Option (Nat → Nat)
  ReadFromProcess : List Call → ThreadInfo → Nat → Nat → Bool → ThreadInfo
  ReadCodeRegionsFromProcess : List Call → CodeList → Nat → Nat → Nat → CodeList
  ReadThreadsFromProcess : List Call → ThreadList → Nat → Bool → ThreadList

/-- The state a method runs in: the report object and the calls issued so
far, oldest first. -/
structure Sys where
  report : CrashReport
  calls : List Call
  deriving DecidableEq, Repr

/-- Record one more call. -/
def Sys.log (s : Sys) (c : Call) : Sys := { s with calls := s.calls ++ [c] }

/-- The calls issued between an earlier state and a later one. -/
def issued (s s' : Sys) : List Call := s'.calls.drop s.calls.length

/-- A call is a raw cross-process memory read. -/
def Call.isRead : Call → Bool
  | .svcReadDebugProcessMemory _ _ _ => true
  | _ => false

/-- A call is a memory-region query. -/
def Call.isQuery : Call → Bool
  | .svcQueryDebugProcessMemory _ _ => true
  | _ => false

/-- The little-endian value of the first `n` bytes of a read. -/
def leBytes (b : Nat → Nat) : Nat → Nat
  | 0 => 0
  | n + 1 => leBytes b n + (b n % 256) * 256 ^ n

/-- The buffer after `n` bytes of a read were stored at its start. -/
def writeBytes (buf : List Nat) (b : Nat → Nat) (n : Nat) : List Nat :=
  (List.range n).map (fun i => b i % 256) ++ buf.drop n

/-- The call `svcQueryDebugProcessMemory(o_mi, &pi, handle, address)`. -/
def svcQuery (K : Kernel) (s : Sys) (h address : Nat) : (Nat × MemoryInfo) × Sys :=
  (K.svcQueryDebugProcessMemory s.calls h address,
   s.log (Call.svcQueryDebugProcessMemory h address))

/-- The call `svcReadDebugProcessMemory(buf, handle, address, size)`. -/
def svcRead (K : Kernel) (s : Sys) (h address size : Nat) : Option (Nat → Nat) × Sys :=
  (K.svcReadDebugProcessMemory s.calls h address size,
   s.log (Call.svcReadDebugProcessMemory h address size))

/-! ## The methods of `creport_crash_report.cpp` -/

/-- The method `CrashReport::IsAddressReadable(address, size, o_mi)`: the
answer, the descriptor left in `*o_mi`, and the next state. -/
def IsAddressReadable (K : Kernel) (s : Sys) (address size : Nat) :
    Bool × MemoryInfo × Sys :=
  let q := svcQuery K s s.report.debug_handle address
  let o_mi := q.1.2
  if R_FAILED q.1.1 then (false, o_mi, q.2)
  /- Must be read or read-write -/
  else if (o_mi.perm ||| Perm_W) != Perm_Rw then (false, o_mi, q.2)
  /- Must have space for both userdata address and userdata size. -/
  else if address < o_mi.addr
      || (o_mi.addr + o_mi.size) % 2 ^ 64 < (address + size) % 2 ^ 64 then
    (false, o_mi, q.2)
  else (true, o_mi, q.2)

/-- The method `CrashReport::HandleAttachProcess(d)`. -/
def HandleAttachProcess (K : Kernel) (D : Header) (s : Sys) (d : DebugEventInfo) : Sys :=
  let s0 : Sys := { s with report := { s.report with process_info := d.info.attach_process } }
  if K.kernelAbove500 && IsApplication s0.report then
    /- Parse out user data. -/
    let address := s0.report.process_info.user_exception_context_address
    let v := IsAddressReadable K s0 address (8 + 8)
    if !v.1 then v.2.2
    else
      /- Read userdata address. -/
      let r1 := svcRead K v.2.2 s0.report.debug_handle address 8
      match r1.1 with
      | none => r1.2
      | some b1 =>
        let userdata_address := leBytes b1 8
        /- Validate userdata address. -/
        if userdata_address == 0 || (userdata_address &&& 0xFFF) != 0 then r1.2
        else
          /- Read userdata size. -/
          let r2 := svcRead K r1.2 s0.report.debug_handle ((address + 8) % 2 ^ 64) 8
          match r2.1 with
          | none => r2.2
          | some b2 =>
            let userdata_size := leBytes b2 8
            /- Cap userdata size. -/
            let userdata_size :=
              if userdata_size > D.dying_message_capacity then D.dying_message_capacity
              else userdata_size
            /- Assign. -/
            { r2.2 with report := { r2.2.report with
                dying_message_address := userdata_address,
                dying_message_size := userdata_size } }
  else s0

/-- The `switch` of `CrashReport::HandleException`: the state at the `break`
of a handled kind, or `none` at the `return` of the ignored kinds. -/
def classifyException (K : Kernel) (D : Header) (s0 : Sys) (d : DebugEventInfo) :
    Option Sys :=
  let setResult (rc : Nat) : Sys := { s0 with report := { s0.report with result := rc } }
  let zeroRaw (t : Sys) : Sys :=
    { t with report := { t.report with exception_info :=
        { t.report.exception_info with specific :=
            { t.report.exception_info.specific with raw := 0 } } } }
  match d.info.exception.type with
  | .UndefinedInstruction => some (setResult D.UndefinedInstruction)
  | .InstructionAbort => some (zeroRaw (setResult D.InstructionAbort))
  | .DataAbort => some (setResult D.DataAbort)
  | .AlignmentFault => some (setResult D.AlignmentFault)
  | .UserBreak =>
    let s1 := setResult D.UserBreak
    /- Try to parse out the user break result. -/
    if K.kernelAbove500 then
      let v := IsAddressReadable K s1 s1.report.exception_info.specific.user_break_address 4
      if v.1 then
        let r := svcRead K v.2.2 s1.report.debug_handle
          s1.report.exception_info.specific.user_break_address 4
        match r.1 with
        | none => some r.2
        | some b => some { r.2 with report := { r.2.report with result := leBytes b 4 } }
      else some v.2.2
    else some s1
  | .BadSvc => some (setResult D.BadSvc)
  | .UnknownNine => some (zeroRaw (setResult D.UnknownNine))
  | .DebuggerAttached => none
  | .BreakPoint => none
  | .DebuggerBreak => none
  | .other _ => none

/-- The method `CrashReport::HandleException(d)`. -/
def HandleException (K : Kernel) (D : Header) (s : Sys) (d : DebugEventInfo) : Sys :=
  let s0 : Sys := { s with report := { s.report with exception_info := d.info.exception } }
  match classifyException K D s0 d with
  | none => s0
  | some s1 =>
    /- Parse crashing thread info. -/
    let ti := K.ReadFromProcess s1.calls s1.report.crashed_thread_info
      s1.report.debug_handle d.thread_id (Is64Bit s1.report)
    { report := { s1.report with crashed_thread_info := ti },
      calls := s1.calls ++
        [Call.ReadFromProcess s1.report.debug_handle d.thread_id (Is64Bit s1.report)] }

/-- The method `CrashReport::ProcessDyingMessage()`. -/
def ProcessDyingMessage (K : Kernel) (D : Header) (s : Sys) : Sys :=
  /- Dying message is only stored starting in 5.0.0. -/
  if !K.kernelAbove500 then s
  /- Validate the message address/size. -/
  else if s.report.dying_message_address == 0
      || (s.report.dying_message_address &&& 0xFFF) != 0 then s
  else if s.report.dying_message_size > D.dying_message_capacity then s
  /- Validate that the report isn't garbage. -/
  else if !IsOpen s.report || !D.WasSuccessful s.report then s
  else
    let v := IsAddressReadable K s s.report.dying_message_address s.report.dying_message_size
    if !v.1 then v.2.2
    else
      let r := svcRead K v.2.2 s.report.debug_handle
        s.report.dying_message_address s.report.dying_message_size
      match r.1 with
      | none => r.2
      | some b =>
        { r.2 with report := { r.2.report with
            dying_message := writeBytes r.2.report.dying_message b
              s.report.dying_message_size } }

/-- The body of the `switch` of `CrashReport::ProcessExceptions` for one
polled event. -/
def dispatchEvent (K : Kernel) (D : Header) (s : Sys) (d : DebugEventInfo) : Sys :=
  match d.type with
  | .AttachProcess => HandleAttachProcess K D s d
  | .Exception => HandleException K D s d
  | .AttachThread => s
  | .ExitProcess => s
  | .ExitThread => s
  | .other _ => s

/-- The `while` loop of `CrashReport::ProcessExceptions`, run for at most
`fuel` polls: `none` when the kernel still delivers events after that many. -/
def pollEvents (K : Kernel) (D : Header) : Nat → Sys → Option Sys
  | 0, _ => none
  | fuel + 1, s =>
    let p := K.svcGetDebugEvent s.calls s.report.debug_handle
    let s1 := s.log (Call.svcGetDebugEvent s.report.debug_handle)
    if R_SUCCEEDED p.1 then pollEvents K D fuel (dispatchEvent K D s1 p.2)
    else some s1

/-- The method `CrashReport::ProcessExceptions()`, with the fuel of its loop. -/
def ProcessExceptions (K : Kernel) (D : Header) (fuel : Nat) (s : Sys) : Option Sys :=
  if !IsOpen s.report then some s
  else pollEvents K D fuel s

/-- Modelled from the spec: `CrashReport::OpenProcess(pid)` is defined in
`creport_crash_report.hpp`, which is not available: attach to the target; on
success the report holds the session handle, on failure it is unchanged. -/
def OpenProcess (K : Kernel) (s : Sys) (pid : Nat) : Bool × Sys :=
  let s1 := s.log (Call.svcDebugActiveProcess pid)
  match K.svcDebugActiveProcess s.calls pid with
  | none => (false, s1)
  | some h => (true, { s1 with report := { s1.report with debug_handle := h } })

/-- Modelled from the spec: `CrashReport::Close()` is defined in
`creport_crash_report.hpp`, which is not available: release the session if the
report holds one. -/
def Close (s : Sys) : Sys :=
  if IsOpen s.report then
    { report := { s.report with debug_handle := INVALID_HANDLE },
      calls := s.calls ++ [Call.svcCloseHandle s.report.debug_handle] }
  else s

/-- The method `CrashReport::BuildReport(pid, has_extra_info)`, with the fuel
of the event loop. -/
def BuildReport (K : Kernel) (D : Header) (fuel : Nat) (s : Sys) (pid : Nat)
    (has_extra_info : Bool) : Option Sys :=
  let s0 : Sys := { s with report := { s.report with has_extra_info := has_extra_info } }
  let o := OpenProcess K s0 pid
  if o.1 then
    match ProcessExceptions K D fuel o.2 with
    | none => none
    | some s1 =>
      let s2 : Sys :=
        if K.kernelAbove500 then
          let cl := K.ReadCodeRegionsFromProcess s1.calls s1.report.code_list
            s1.report.debug_handle s1.report.crashed_thread_info.GetPC
            s1.report.crashed_thread_info.GetLR
          let a : Sys :=
            { report := { s1.report with code_list := cl },
              calls := s1.calls ++ [Call.ReadCodeRegionsFromProcess s1.report.debug_handle
                s1.report.crashed_thread_info.GetPC s1.report.crashed_thread_info.GetLR] }
          let tl := K.ReadThreadsFromProcess a.calls a.report.thread_list
            a.report.debug_handle (Is64Bit a.report)
          { report := { a.report with thread_list := tl },
            calls := a.calls ++
              [Call.ReadThreadsFromProcess a.report.debug_handle (Is64Bit a.report)] }
        else s1
      let s3 := if IsApplication s2.report then ProcessDyingMessage K D s2 else s2
      /- Real creport builds the report here. We do it later. -/
      some (Close s3)
  else some o.2

/-! ## Guarded reads -/

/-- The answer of `IsAddressReadable(a, n)` written as one boolean expression
over the answer of the memory query, for the calls `calls` issued so far and
the session handle `h` (`IsAddressReadable_fst` relates the two). -/
def accepts (K : Kernel) (calls : List Call) (h a n : Nat) : Bool :=
  !R_FAILED (K.svcQueryDebugProcessMemory calls h a).1
    && ((K.svcQueryDebugProcessMemory calls h a).2.perm ||| Perm_W) == Perm_Rw
    && !(decide (a < (K.svcQueryDebugProcessMemory calls h a).2.addr)
        || decide (((K.svcQueryDebugProcessMemory calls h a).2.addr
              + (K.svcQueryDebugProcessMemory calls h a).2.size) % 2 ^ 64 < (a + n) % 2 ^ 64))

/-- The `n` bytes read at machine address `a` lie in the `n0` bytes validated
at machine address `a0`: every byte read is a byte of the validated range
(addresses are taken modulo `2 ^ 64`, as the machine does), and where the
validated range does not wrap around the end of the address space the range
read is a sub-interval of it. -/
def covers (a0 n0 a n : Nat) : Prop :=
  (∀ k, k < n → ∃ m, m < n0 ∧ (a + k) % 2 ^ 64 = (a0 + m) % 2 ^ 64)
  ∧ (a0 < 2 ^ 64 → a < 2 ^ 64 → a0 + n0 ≤ 2 ^ 64 → a0 ≤ a ∧ a + n ≤ a0 + n0)

/-- Every raw memory read among the calls `new`, issued after the calls `pre`,
comes after a call `IsAddressReadable(a0, n0)` that was made within `new`, on
the same handle, that answered `true`, and whose range covers the bytes read:
the read is call number `i`, the query of the validation is call number `j`
with `j < i`, `t` is the state the validation ran in, and `n0` is the size the
handler passes to `IsAddressReadable`. -/
def ReadsGuarded (K : Kernel) (pre new : List Call) (n0 : Nat) : Prop :=
  ∀ i h a n, new.get? i = some (Call.svcReadDebugProcessMemory h a n) →
    ∃ j a0, ∃ t : Sys, j < i ∧ t.calls = pre ++ new.take j ∧ t.report.debug_handle = h ∧
      new.get? j = some (Call.svcQueryDebugProcessMemory h a0) ∧
      (IsAddressReadable K t a0 n0).1 = true ∧ covers a0 n0 a n

/-! ## Concrete instances, for evaluating the methods -/

/-- A set of header constants: the result codes of the seven handled fault
kinds, a payload capacity of `0x1000` bytes, and a report that counts as
successful once its result code is no longer `0xC6A8`. -/
def exHeader : Header :=
  { UndefinedInstruction := 0x00A8, InstructionAbort := 0x02A8, DataAbort := 0x04A8,
    AlignmentFault := 0x06A8, UserBreak := 0x0CA8, BadSvc := 0x10A8, UnknownNine := 0x12A8,
    dying_message_capacity := 0x1000,
    WasSuccessful := fun r => r.result != 0xC6A8 }

/-- The information of an attached application process whose control structure
is at `0x2000`. -/
def exProcessInfo : AttachProcessInfo :=
  { title_id := 0x0100000000001000, process_id := 0x51, is_64_bit := true,
    is_application := true, user_exception_context_address := 0x2000 }

/-- A fault record of the given kind, with detail word `0xABCD` and break
address `addr`. -/
def exException (k : DebugExceptionType) (addr : Nat) : ExceptionInfo :=
  { type := k, address := 0x7100001000,
    specific := { raw := 0xABCD, user_break_address := addr } }

/-- An exception event of the given kind on thread 7. -/
def exExceptionEvent (k : DebugExceptionType) (addr : Nat) : DebugEventInfo :=
  { type := .Exception, thread_id := 7,
    info := { attach_process := exProcessInfo, exception := exException k addr } }

/-- An attach event for the process `exProcessInfo`. -/
def exAttachEvent : DebugEventInfo :=
  { type := .AttachProcess, thread_id := 0,
    info := { attach_process := exProcessInfo,
              exception := exException .UndefinedInstruction 0 } }

/-- A report as the constructor leaves it, holding the session handle `h`. -/
def exReport (h : Nat) : CrashReport :=
  { debug_handle := h, has_extra_info := false, result := 0xC6A8,
    process_info := { title_id := 0, process_id := 0, is_64_bit := false,
                      is_application := false, user_exception_context_address := 0 },
    dying_message_address := 0, dying_message_size := 0,
    dying_message := List.replicate 0x1000 0,
    exception_info := exException (.other 0) 0,
    crashed_thread_info := ThreadInfo.empty,
    code_list := { regions := [] }, thread_list := ThreadList.empty }

/-- A state with the report `exReport h` and no call issued yet. -/
def exSys (h : Nat) : Sys := { report := exReport h, calls := [] }

/-- The bytes of the little-endian number `v`: byte `i` is `v / 256 ^ i`. -/
def bytesOf (v : Nat) : Nat → Nat := fun i => v / 256 ^ i % 256

/-- A kernel with the capability `cap`, whose every memory query answers the
region `mi` with result code `rc`, whose memory read at address `a` answers
`rd a`, that has no debug event, and whose capture components change
nothing. -/
def exKernel (cap : Bool) (rc : Nat) (mi : MemoryInfo) (rd : Nat → Option (Nat → Nat)) :
    Kernel :=
  { kernelAbove500 := cap,
    svcDebugActiveProcess := fun _ _ => some 0x80,
    svcGetDebugEvent := fun _ _ => (1, exAttachEvent),
    svcQueryDebugProcessMemory := fun _ _ _ => (rc, mi),
    svcReadDebugProcessMemory := fun _ _ a _ => rd a,
    ReadFromProcess := fun _ t _ _ _ => t,
    ReadCodeRegionsFromProcess := fun _ c _ _ _ => c,
    ReadThreadsFromProcess := fun _ t _ _ => t }

/-- A target memory in which every read fails. -/
def noMemory : Nat → Option (Nat → Nat) := fun _ => none

/-- A target memory in which every read succeeds: the word at `0x2000` is
`0x5000`, the word at `0x2008` is `0x1064` (the capacity of `exHeader` plus
100), and every other address holds `0x1234`. -/
def exMemory : Nat → Option (Nat → Nat) := fun a =>
  if a = 0x2000 then some (bytesOf 0x5000)
  else if a = 0x2008 then some (bytesOf 0x1064)
  else some (bytesOf 0x1234)

/-- A readable and writable region of one page at `0x2000`. -/
def exRegion : MemoryInfo :=
  { addr := 0x2000, size := 0x1000, type := 5, attr := 0, perm := Perm_Rw }

/-- A readable region whose descriptor ends one byte below `2 ^ 64`. -/
def topRegion : MemoryInfo :=
  { addr := 0xFFFFFFFFFFFFF000, size := 0xFFF, type := 5, attr := 0, perm := Perm_R }

/-- A state whose report is open (handle 1), holds the result code of a data
abort, and stores a payload descriptor of `0x40` bytes at `0x2000`. -/
def exDyingSys : Sys :=
  { report :=
      { exReport 1 with
        result := 0x04A8, process_info := exProcessInfo,
        dying_message_address := 0x2000, dying_message_size := 0x40 },
    calls := [] }

/-! ## The event loop as a sequence of events -/

/-- The events that the loop of `ProcessExceptions` polls and dispatches within
`fuel` polls, in the order of their arrival. -/
def polled (K : Kernel) (D : Header) : Nat → Sys → List DebugEventInfo
  | 0, _ => []
  | fuel + 1, s =>
    let p := K.svcGetDebugEvent s.calls s.report.debug_handle
    let s1 := s.log (Call.svcGetDebugEvent s.report.debug_handle)
    if R_SUCCEEDED p.1 then p.2 :: polled K D fuel (dispatchEvent K D s1 p.2)
    else []

/-- The state after the loop of `ProcessExceptions` polled and dispatched the
events `ds`, one after the other. -/
def dispatchAll (K : Kernel) (D : Header) (s : Sys) : List DebugEventInfo → Sys
  | [] => s
  | d :: ds =>
    dispatchAll K D
      (dispatchEvent K D (s.log (Call.svcGetDebugEvent s.report.debug_handle)) d) ds

/-- Lines 51 to 54 of `BuildReport` on their own, as a function of the state
the event loop returned (`BuildReport_eq` relates it to `BuildReport`): with
the capability present, the code regions and then the threads are captured. -/
def captureExtended (K : Kernel) (s1 : Sys) : Sys :=
  if K.kernelAbove500 then
    let cl := K.ReadCodeRegionsFromProcess s1.calls s1.report.code_list
      s1.report.debug_handle s1.report.crashed_thread_info.GetPC
      s1.report.crashed_thread_info.GetLR
    let a : Sys :=
      { report := { s1.report with code_list := cl },
        calls := s1.calls ++ [Call.ReadCodeRegionsFromProcess s1.report.debug_handle
          s1.report.crashed_thread_info.GetPC s1.report.crashed_thread_info.GetLR] }
    let tl := K.ReadThreadsFromProcess a.calls a.report.thread_list
      a.report.debug_handle (Is64Bit a.report)
    { report := { a.report with thread_list := tl },
      calls := a.calls ++
        [Call.ReadThreadsFromProcess a.report.debug_handle (Is64Bit a.report)] }
  else s1

/-- Lines 51 to 62 of `BuildReport` on their own, as a function of the state
the event loop returned (`BuildReport_eq` relates it to `BuildReport`): the
extended capture, the payload extraction for an application, and `Close`. -/
def finishReport (K : Kernel) (D : Header) (s1 : Sys) : Sys :=
  Close (if IsApplication (captureExtended K s1).report
    then ProcessDyingMessage K D (captureExtended K s1) else captureExtended K s1)

/-- The state with the stored extra-info flag replaced. -/
def Sys.withExtraInfo (s : Sys) (b : Bool) : Sys :=
  { s with report := { s.report with has_extra_info := b } }

/-- The stored payload size does not exceed the payload capacity. -/
def PayloadBounded (D : Header) (s : Sys) : Prop :=
  s.report.dying_message_size ≤ D.dying_message_capacity

/-! ## Concrete event streams -/

/-- The number of `svcGetDebugEvent` calls among `calls`. -/
def pollCount : List Call → Nat
  | [] => 0
  | .svcGetDebugEvent _ :: cs => pollCount cs + 1
  | _ :: cs => pollCount cs

/-- A roster that holds one captured thread. -/
def oneThread : ThreadList :=
  { thread_count := 1, thread_infos := [{ ThreadInfo.empty with thread_id := 7 }] }

/-- A kernel like `exKernel cap 0 exRegion exMemory` that delivers the debug
events `events`, one per poll, and then reports that there is none left, and
whose thread enumeration captures the roster `threads`. -/
def streamKernel (cap : Bool) (events : List DebugEventInfo) (threads : ThreadList) : Kernel :=
  { exKernel cap 0 exRegion exMemory with
    svcGetDebugEvent := fun calls _ =>
      match events.get? (pollCount calls) with
      | some d => (0, d)
      | none => (1, exAttachEvent)
    ReadThreadsFromProcess := fun _ _ _ _ => threads }

/-- An attach event for a process that is not an application. -/
def exSystemAttachEvent : DebugEventInfo :=
  { exAttachEvent with
    info := { exAttachEvent.info with
      attach_process := { exProcessInfo with is_application := false } } }

/-! ## The region validator -/

/-- The trace after `IsAddressReadable`: one query, at the address asked. -/
@[simp] theorem IsAddressReadable_calls (K : Kernel) (s : Sys) (a sz : Nat) :
    (IsAddressReadable K s a sz).2.2.calls
      = s.calls ++ [Call.svcQueryDebugProcessMemory s.report.debug_handle a] := by
  simp only [IsAddressReadable, svcQuery, Sys.log]
  split_ifs <;> rfl

/-- The report is not touched by `IsAddressReadable`. -/
@[simp] theorem IsAddressReadable_report (K : Kernel) (s : Sys) (a sz : Nat) :
    (IsAddressReadable K s a sz).2.2.report = s.report := by
  simp only [IsAddressReadable, svcQuery, Sys.log]
  split_ifs <;> rfl

/-- The answer of `IsAddressReadable` depends on the calls issued so far and
on the session handle only: it is `accepts`. -/
theorem IsAddressReadable_fst (K : Kernel) (s : Sys) (a sz : Nat) :
    (IsAddressReadable K s a sz).1 = accepts K s.calls s.report.debug_handle a sz := by
  simp only [IsAddressReadable, svcQuery, accepts]
  split_ifs <;> simp_all
  omega

/-- The permission test of `IsAddressReadable` on natural numbers: with the
write bit set the value is `Perm_Rw` exactly for `Perm_R` and `Perm_Rw`. -/
theorem perm_or_W_eq_Rw_iff (p : Nat) : p ||| Perm_W = Perm_Rw ↔ p = Perm_R ∨ p = Perm_Rw := by
  have e2 : Perm_W = 2 := rfl
  have e3 : Perm_Rw = 3 := rfl
  have e1 : Perm_R = 1 := rfl
  rw [e1, e2, e3]
  constructor
  · intro h
    have hlt : p < 2 ^ 2 := by
      apply Nat.lt_pow_two_of_testBit
      intro i hi
      have h3 : Nat.testBit 3 i = false :=
        Nat.testBit_lt_two_pow
          (lt_of_lt_of_le (by decide : 3 < 2 ^ 2) (Nat.pow_le_pow_right (by decide) hi))
      have hb := congrArg (fun n => Nat.testBit n i) h
      simp only [Nat.testBit_or, h3, Bool.or_eq_false_iff] at hb
      exact hb.1
    have hlt4 : p < 4 := by simpa using hlt
    interval_cases p <;> simp_all
  · rintro (rfl | rfl) <;> decide

/-- C1, the code evaluated at two failing inputs. First: the query at
`0xFFFFFFFFFFFFFFF8` answers the readable region
`[0xFFFFFFFFFFFFF000, 0xFFFFFFFFFFFFFFFF)`; the 16 bytes asked for end at
`2 ^ 64 + 8`, past the end of the region; the `u64` sum `address + size` wraps
to 8 and `IsAddressReadable` answers `true`. Second: the query at `0x2000`
answers the region `[0x2000, 0x3000)`; the `0xFFFFFFFFFFFFF000` bytes asked for
end far past the region; `address + size` wraps to `0x1000` and
`IsAddressReadable` answers `true`. -/
theorem IsAddressReadable_accepts_wrapped_range :
    ((exKernel true 0 topRegion noMemory).svcQueryDebugProcessMemory (exSys 1).calls
          (exSys 1).report.debug_handle 0xFFFFFFFFFFFFFFF8 = (0, topRegion)
      ∧ ¬ (topRegion.addr ≤ 0xFFFFFFFFFFFFFFF8
            ∧ 0xFFFFFFFFFFFFFFF8 + 16 ≤ topRegion.addr + topRegion.size)
      ∧ (IsAddressReadable (exKernel true 0 topRegion noMemory) (exSys 1)
            0xFFFFFFFFFFFFFFF8 16).1 = true)
    ∧ ((exKernel true 0 exRegion noMemory).svcQueryDebugProcessMemory (exSys 1).calls
          (exSys 1).report.debug_handle 0x2000 = (0, exRegion)
      ∧ ¬ (exRegion.addr ≤ 0x2000
            ∧ 0x2000 + 0xFFFFFFFFFFFFF000 ≤ exRegion.addr + exRegion.size)
      ∧ (IsAddressReadable (exKernel true 0 exRegion noMemory) (exSys 1)
            0x2000 0xFFFFFFFFFFFFF000).1 = true) := by
  refine ⟨⟨rfl, by decide, by decide⟩, ⟨rfl, by decide, by decide⟩⟩

/-- Where neither `address + size` nor `addr + size` of the region exceeds
`2 ^ 64 - 1`, an accepted range lies within the queried region. -/
theorem IsAddressReadable_contained_of_no_wrap (K : Kernel) (s : Sys) (a sz : Nat)
    (hacc : (IsAddressReadable K s a sz).1 = true)
    (ha : a + sz < 2 ^ 64)
    (hr : (K.svcQueryDebugProcessMemory s.calls s.report.debug_handle a).2.addr
          + (K.svcQueryDebugProcessMemory s.calls s.report.debug_handle a).2.size < 2 ^ 64) :
    (K.svcQueryDebugProcessMemory s.calls s.report.debug_handle a).2.addr ≤ a
      ∧ a + sz ≤ (K.svcQueryDebugProcessMemory s.calls s.report.debug_handle a).2.addr
          + (K.svcQueryDebugProcessMemory s.calls s.report.debug_handle a).2.size := by
  rw [IsAddressReadable_fst] at hacc
  simp only [accepts, Bool.and_eq_true, Bool.not_eq_true', Bool.or_eq_false_iff,
    decide_eq_false_iff_not, not_lt] at hacc
  obtain ⟨_, h1, h2⟩ := hacc
  rw [Nat.mod_eq_of_lt ha, Nat.mod_eq_of_lt hr] at h2
  exact ⟨h1, h2⟩

/-- C2: whatever the address, the size and the answer of the query, a region
whose permission lacks the read bit (`perm & Perm_R = 0`: no access,
write-only, execute-only, write+execute) makes `IsAddressReadable` answer
`false`; and for a region that is read-only or read-write the permission test
of the source, `(perm | Perm_W) != Perm_Rw`, is false (the check passes), so
that the answer is decided by the success of the query and the bounds test
alone. -/
theorem IsAddressReadable_read_permission (K : Kernel) (s : Sys) (a sz : Nat) :
    ((K.svcQueryDebugProcessMemory s.calls s.report.debug_handle a).2.perm &&& Perm_R = 0 →
        (IsAddressReadable K s a sz).1 = false)
    ∧ ((K.svcQueryDebugProcessMemory s.calls s.report.debug_handle a).2.perm = Perm_R
        ∨ (K.svcQueryDebugProcessMemory s.calls s.report.debug_handle a).2.perm = Perm_Rw →
        (((K.svcQueryDebugProcessMemory s.calls s.report.debug_handle a).2.perm ||| Perm_W)
            != Perm_Rw) = false
        ∧ (IsAddressReadable K s a sz).1
          = (!R_FAILED (K.svcQueryDebugProcessMemory s.calls s.report.debug_handle a).1
              && !(decide (a < (K.svcQueryDebugProcessMemory s.calls s.report.debug_handle a).2.addr)
                || decide (((K.svcQueryDebugProcessMemory s.calls s.report.debug_handle a).2.addr
                      + (K.svcQueryDebugProcessMemory s.calls s.report.debug_handle a).2.size)
                        % 2 ^ 64 < (a + sz) % 2 ^ 64)))) := by
  constructor
  · intro h
    rw [IsAddressReadable_fst]
    have hne : ¬ ((K.svcQueryDebugProcessMemory s.calls s.report.debug_handle a).2.perm
        ||| Perm_W = Perm_Rw) := by
      intro h3
      rcases (perm_or_W_eq_Rw_iff _).1 h3 with e | e <;> rw [e] at h <;> revert h <;> decide
    simp [accepts, hne]
  · intro h
    rw [IsAddressReadable_fst]
    have heq := (perm_or_W_eq_Rw_iff _).2 h
    simp [accepts, heq]

/-- Witness of C2: a write-only, an execute-only, a write+execute and a
no-access region are refused; in a read-only and in a read-write region an
address range inside the region is accepted. -/
theorem IsAddressReadable_read_permission_witness :
    (IsAddressReadable (exKernel true 0 { exRegion with perm := Perm_W } noMemory)
        (exSys 1) 0x2000 4).1 = false
    ∧ (IsAddressReadable (exKernel true 0 { exRegion with perm := Perm_X } noMemory)
        (exSys 1) 0x2000 4).1 = false
    ∧ (IsAddressReadable (exKernel true 0 { exRegion with perm := Perm_W ||| Perm_X } noMemory)
        (exSys 1) 0x2000 4).1 = false
    ∧ (IsAddressReadable (exKernel true 0 { exRegion with perm := 0 } noMemory)
        (exSys 1) 0x2000 4).1 = false
    ∧ (IsAddressReadable (exKernel true 0 { exRegion with perm := Perm_R } noMemory)
        (exSys 1) 0x2000 4).1 = true
    ∧ (IsAddressReadable (exKernel true 0 { exRegion with perm := Perm_Rw } noMemory)
        (exSys 1) 0x2000 4).1 = true :=
  ⟨(IsAddressReadable_read_permission _ _ _ _).1 (by decide),
   (IsAddressReadable_read_permission _ _ _ _).1 (by decide),
   (IsAddressReadable_read_permission _ _ _ _).1 (by decide),
   (IsAddressReadable_read_permission _ _ _ _).1 (by decide),
   (((IsAddressReadable_read_permission _ _ _ _).2 (Or.inl rfl)).2).trans (by decide),
   (((IsAddressReadable_read_permission _ _ _ _).2 (Or.inr rfl)).2).trans (by decide)⟩

/-! ## The calls each handler issues -/

/-- The calls issued up to a state whose trace extends the earlier one. -/
theorem issued_of_calls {s s' : Sys} {l : List Call} (h : s'.calls = s.calls ++ l) :
    issued s s' = l := by
  simp [issued, h]

/-- The trace of `ProcessDyingMessage`: nothing, or the query of the
validation, or that query followed by the payload read. -/
theorem ProcessDyingMessage_calls (K : Kernel) (D : Header) (s : Sys) :
    (ProcessDyingMessage K D s).calls = s.calls ++
      (if !K.kernelAbove500 then []
      else if s.report.dying_message_address == 0
          || (s.report.dying_message_address &&& 0xFFF) != 0 then []
      else if s.report.dying_message_size > D.dying_message_capacity then []
      else if !IsOpen s.report || !D.WasSuccessful s.report then []
      else if !(IsAddressReadable K s s.report.dying_message_address
          s.report.dying_message_size).1 then
        [Call.svcQueryDebugProcessMemory s.report.debug_handle s.report.dying_message_address]
      else
        [Call.svcQueryDebugProcessMemory s.report.debug_handle s.report.dying_message_address,
         Call.svcReadDebugProcessMemory s.report.debug_handle s.report.dying_message_address
           s.report.dying_message_size]) := by
  simp only [ProcessDyingMessage]
  split_ifs
  · simp
  · simp
  · simp
  · simp
  · simp
  · split <;> simp [svcRead, Sys.log]

/-- The trace of `HandleAttachProcess`: nothing, or the query of the
validation, followed by the read of the descriptor address, followed by the
read of the descriptor size. -/
theorem HandleAttachProcess_calls (K : Kernel) (D : Header) (s : Sys) (d : DebugEventInfo) :
    (HandleAttachProcess K D s d).calls = s.calls ++
      (if K.kernelAbove500 && d.info.attach_process.is_application then
        if !(IsAddressReadable K s d.info.attach_process.user_exception_context_address 16).1 then
          [Call.svcQueryDebugProcessMemory s.report.debug_handle
            d.info.attach_process.user_exception_context_address]
        else
          match K.svcReadDebugProcessMemory
              (s.calls ++ [Call.svcQueryDebugProcessMemory s.report.debug_handle
                d.info.attach_process.user_exception_context_address])
              s.report.debug_handle d.info.attach_process.user_exception_context_address 8 with
          | none =>
            [Call.svcQueryDebugProcessMemory s.report.debug_handle
                d.info.attach_process.user_exception_context_address,
             Call.svcReadDebugProcessMemory s.report.debug_handle
                d.info.attach_process.user_exception_context_address 8]
          | some b1 =>
            if leBytes b1 8 == 0 || (leBytes b1 8 &&& 0xFFF) != 0 then
              [Call.svcQueryDebugProcessMemory s.report.debug_handle
                  d.info.attach_process.user_exception_context_address,
               Call.svcReadDebugProcessMemory s.report.debug_handle
                  d.info.attach_process.user_exception_context_address 8]
            else
              [Call.svcQueryDebugProcessMemory s.report.debug_handle
                  d.info.attach_process.user_exception_context_address,
               Call.svcReadDebugProcessMemory s.report.debug_handle
                  d.info.attach_process.user_exception_context_address 8,
               Call.svcReadDebugProcessMemory s.report.debug_handle
                  ((d.info.attach_process.user_exception_context_address + 8) % 2 ^ 64) 8]
      else []) := by
  simp only [HandleAttachProcess, IsApplication, IsAddressReadable_fst,
    IsAddressReadable_calls, IsAddressReadable_report, svcRead, Sys.log]
  split_ifs with hg hv
  · simp
  · cases hr1 : K.svcReadDebugProcessMemory
        (s.calls ++ [Call.svcQueryDebugProcessMemory s.report.debug_handle
          d.info.attach_process.user_exception_context_address])
        s.report.debug_handle d.info.attach_process.user_exception_context_address 8 with
    | none => simp
    | some b1 =>
      simp only []
      split_ifs with hb
      · simp
      · split <;> simp
  · simp

/-- The trace of `HandleException`: for a user break the query of the
validation and the read of the result code, as far as they are reached,
followed by the capture of the faulting thread; for the other handled kinds
the capture alone; for the ignored kinds nothing. -/
theorem HandleException_calls (K : Kernel) (D : Header) (s : Sys) (d : DebugEventInfo) :
    (HandleException K D s d).calls = s.calls ++
      (match d.info.exception.type with
      | .UserBreak =>
        (if K.kernelAbove500 then
          if (IsAddressReadable K s d.info.exception.specific.user_break_address 4).1 then
            [Call.svcQueryDebugProcessMemory s.report.debug_handle
                d.info.exception.specific.user_break_address,
             Call.svcReadDebugProcessMemory s.report.debug_handle
                d.info.exception.specific.user_break_address 4]
          else
            [Call.svcQueryDebugProcessMemory s.report.debug_handle
                d.info.exception.specific.user_break_address]
         else [])
          ++ [Call.ReadFromProcess s.report.debug_handle d.thread_id (Is64Bit s.report)]
      | .DebuggerAttached => []
      | .BreakPoint => []
      | .DebuggerBreak => []
      | .other _ => []
      | _ => [Call.ReadFromProcess s.report.debug_handle d.thread_id (Is64Bit s.report)]) := by
  simp only [HandleException, classifyException, IsAddressReadable_fst,
    IsAddressReadable_calls, IsAddressReadable_report, svcRead, Sys.log, Is64Bit]
  cases ht : d.info.exception.type <;> simp only [] <;> try simp
  split_ifs with hc hv
  · cases hr : K.svcReadDebugProcessMemory
        (s.calls ++ [Call.svcQueryDebugProcessMemory s.report.debug_handle
          d.info.exception.specific.user_break_address])
        s.report.debug_handle d.info.exception.specific.user_break_address 4 <;> simp
  · simp [Is64Bit]
  · simp

/-! ## Every raw read is guarded by the validator -/

/-- A read that starts `off` bytes into a validated range (in `u64`
arithmetic) and ends within it lies in that range. -/
theorem covers_offset (a0 n0 a n off : Nat) (ha : a % 2 ^ 64 = (a0 + off) % 2 ^ 64)
    (hn : off + n ≤ n0) (hoff : off < n0 ∨ off = 0) : covers a0 n0 a n := by
  constructor
  · intro k hk
    refine ⟨off + k, by omega, ?_⟩
    norm_num at ha ⊢
    omega
  · intro h0 h1 h2
    norm_num at ha h0 h1 h2
    omega

/-- Calls among which there is no read are guarded. -/
theorem ReadsGuarded_of_no_read (K : Kernel) (pre new : List Call)
    (n0 : Nat) (hnew : ∀ c ∈ new, c.isRead = false) : ReadsGuarded K pre new n0 := by
  intro i h a n hget
  have hmem : Call.svcReadDebugProcessMemory h a n ∈ new := List.get?_mem hget
  have hno := hnew _ hmem
  simp [Call.isRead] at hno

/-- Calls that start with the query of an accepting validation, and whose
reads all lie in the validated range, are guarded. -/
theorem ReadsGuarded_query_cons (K : Kernel) (t : Sys) (a0 n0 : Nat) (rest : List Call)
    (hacc : (IsAddressReadable K t a0 n0).1 = true)
    (hrest : ∀ c ∈ rest, c.isRead = true →
      ∃ a n, c = Call.svcReadDebugProcessMemory t.report.debug_handle a n ∧ covers a0 n0 a n) :
    ReadsGuarded K t.calls
      (Call.svcQueryDebugProcessMemory t.report.debug_handle a0 :: rest) n0 := by
  intro i h a n hget
  cases i with
  | zero => simp at hget
  | succ i =>
    have hget2 : rest.get? i = some (Call.svcReadDebugProcessMemory h a n) := by simpa using hget
    obtain ⟨a1, n1, he, hc⟩ := hrest _ (List.get?_mem hget2) rfl
    injection he with e1 e2 e3
    subst e1 e2 e3
    exact ⟨0, a0, t, Nat.succ_pos _, by simp, rfl, by simp, hacc, hc⟩

/-- The payload read of `ProcessDyingMessage` is guarded. -/
theorem ProcessDyingMessage_guarded (K : Kernel) (D : Header) (s : Sys) :
    ReadsGuarded K s.calls (issued s (ProcessDyingMessage K D s))
      s.report.dying_message_size := by
  rw [issued_of_calls (ProcessDyingMessage_calls K D s)]
  split_ifs with h1 h2 h3 h4 h5
  · exact ReadsGuarded_of_no_read _ _ _ _ (by simp)
  · exact ReadsGuarded_of_no_read _ _ _ _ (by simp)
  · exact ReadsGuarded_of_no_read _ _ _ _ (by simp)
  · exact ReadsGuarded_of_no_read _ _ _ _ (by simp)
  · exact ReadsGuarded_of_no_read _ _ _ _ (by simp [Call.isRead])
  · apply ReadsGuarded_query_cons K s _ s.report.dying_message_size
    · simpa using h5
    · intro c hmem _
      simp only [List.mem_singleton] at hmem
      exact ⟨_, _, hmem, covers_offset _ _ _ _ 0 rfl (by omega) (Or.inr rfl)⟩

/-- The two descriptor reads of `HandleAttachProcess` are guarded. -/
theorem HandleAttachProcess_guarded (K : Kernel) (D : Header) (s : Sys) (d : DebugEventInfo) :
    ReadsGuarded K s.calls (issued s (HandleAttachProcess K D s d)) 16 := by
  rw [issued_of_calls (HandleAttachProcess_calls K D s d)]
  split_ifs with hg hv
  · exact ReadsGuarded_of_no_read _ _ _ _ (by simp [Call.isRead])
  · have hacc : (IsAddressReadable K s
        d.info.attach_process.user_exception_context_address 16).1 = true := by simpa using hv
    split
    · apply ReadsGuarded_query_cons K s _ 16 _ hacc
      intro c hmem _
      simp only [List.mem_singleton] at hmem
      exact ⟨_, _, hmem, covers_offset _ _ _ _ 0 rfl (by omega) (Or.inr rfl)⟩
    · split_ifs
      · apply ReadsGuarded_query_cons K s _ 16 _ hacc
        intro c hmem _
        simp only [List.mem_singleton] at hmem
        exact ⟨_, _, hmem, covers_offset _ _ _ _ 0 rfl (by omega) (Or.inr rfl)⟩
      · apply ReadsGuarded_query_cons K s _ 16 _ hacc
        intro c hmem _
        simp only [List.mem_cons, List.mem_singleton, List.not_mem_nil, or_false] at hmem
        rcases hmem with hmem | hmem
        · exact ⟨_, _, hmem, covers_offset _ _ _ _ 0 rfl (by omega) (Or.inr rfl)⟩
        · exact ⟨_, _, hmem, covers_offset _ _ _ _ 8 (by simp) (by omega) (Or.inl (by omega))⟩
  · exact ReadsGuarded_of_no_read _ _ _ _ (by simp)

/-- The result-code read of `HandleException` is guarded. -/
theorem HandleException_guarded (K : Kernel) (D : Header) (s : Sys) (d : DebugEventInfo) :
    ReadsGuarded K s.calls (issued s (HandleException K D s d)) 4 := by
  rw [issued_of_calls (HandleException_calls K D s d)]
  split
  · split_ifs with hc hv
    · simp only [List.cons_append, List.nil_append]
      apply ReadsGuarded_query_cons K s _ 4 _ hv
      intro c hmem hr
      simp only [List.mem_cons, List.mem_singleton, List.not_mem_nil, or_false] at hmem
      rcases hmem with hmem | hmem
      · exact ⟨_, _, hmem, covers_offset _ _ _ _ 0 rfl (by omega) (Or.inr rfl)⟩
      · subst hmem; simp [Call.isRead] at hr
    · exact ReadsGuarded_of_no_read _ _ _ _ (by simp [Call.isRead])
    · exact ReadsGuarded_of_no_read _ _ _ _ (by simp [Call.isRead])
  all_goals exact ReadsGuarded_of_no_read _ _ _ _ (by simp [Call.isRead])

/-- C3: every raw cross-process memory read that `HandleAttachProcess` (the
two descriptor reads), `HandleException` (the result-code read) and
`ProcessDyingMessage` (the payload read) issue comes, within the calls of the
same invocation, after the query of a call of `IsAddressReadable` on the same
session that answered `true` for the size the handler passes (16, 4, the
stored payload size), and the validated range `[a0, a0 + n0)` contains every
byte of the range read (`ReadsGuarded`, `covers`: byte addresses modulo
`2 ^ 64`, and plain interval inclusion where the validated range does not wrap);
each trace extends the trace the handler started from by exactly the calls
considered. -/
theorem reads_are_guarded (K : Kernel) (D : Header) (s : Sys) (d : DebugEventInfo) :
    ((HandleAttachProcess K D s d).calls = s.calls ++ issued s (HandleAttachProcess K D s d)
      ∧ ReadsGuarded K s.calls (issued s (HandleAttachProcess K D s d)) 16)
    ∧ ((HandleException K D s d).calls = s.calls ++ issued s (HandleException K D s d)
      ∧ ReadsGuarded K s.calls (issued s (HandleException K D s d)) 4)
    ∧ ((ProcessDyingMessage K D s).calls = s.calls ++ issued s (ProcessDyingMessage K D s)
      ∧ ReadsGuarded K s.calls (issued s (ProcessDyingMessage K D s))
          s.report.dying_message_size) := by
  refine ⟨⟨?_, HandleAttachProcess_guarded K D s d⟩, ⟨?_, HandleException_guarded K D s d⟩,
    ⟨?_, ProcessDyingMessage_guarded K D s⟩⟩
  · rw [issued_of_calls (HandleAttachProcess_calls K D s d)]
    exact HandleAttachProcess_calls K D s d
  · rw [issued_of_calls (HandleException_calls K D s d)]
    exact HandleException_calls K D s d
  · rw [issued_of_calls (ProcessDyingMessage_calls K D s)]
    exact ProcessDyingMessage_calls K D s

/-- Witness of C3: for an attached application whose control structure at
`0x2000` is readable, `HandleAttachProcess` issues the query and the two
descriptor reads, at `0x2000` and `0x2008`, and they are guarded. -/
theorem reads_are_guarded_witness :
    issued (exSys 1) (HandleAttachProcess (exKernel true 0 exRegion exMemory) exHeader
        (exSys 1) exAttachEvent)
      = [Call.svcQueryDebugProcessMemory 1 0x2000,
         Call.svcReadDebugProcessMemory 1 0x2000 8,
         Call.svcReadDebugProcessMemory 1 0x2008 8]
    ∧ ReadsGuarded (exKernel true 0 exRegion exMemory) (exSys 1).calls
        (issued (exSys 1) (HandleAttachProcess (exKernel true 0 exRegion exMemory) exHeader
          (exSys 1) exAttachEvent)) 16 :=
  ⟨by decide,
   (reads_are_guarded (exKernel true 0 exRegion exMemory) exHeader (exSys 1)
      exAttachEvent).1.2⟩

/-! ## The result code of a user break -/

/-- The result code after `HandleException` for a user break: the value read
when the capability is present, the break address is accepted and the read
succeeds, and the default code of a user break otherwise. -/
theorem HandleException_UserBreak_result (K : Kernel) (D : Header) (s : Sys) (d : DebugEventInfo)
    (ht : d.info.exception.type = .UserBreak) :
    (HandleException K D s d).report.result =
      if K.kernelAbove500
          && (IsAddressReadable K s d.info.exception.specific.user_break_address 4).1 then
        match K.svcReadDebugProcessMemory
            (s.calls ++ [Call.svcQueryDebugProcessMemory s.report.debug_handle
              d.info.exception.specific.user_break_address])
            s.report.debug_handle d.info.exception.specific.user_break_address 4 with
        | some b => leBytes b 4
        | none => D.UserBreak
      else D.UserBreak := by
  simp only [HandleException, classifyException, ht, IsAddressReadable_fst,
    IsAddressReadable_calls, IsAddressReadable_report, svcRead, Sys.log]
  by_cases hc : K.kernelAbove500 = true
  · by_cases hv : accepts K s.calls s.report.debug_handle
        d.info.exception.specific.user_break_address 4 = true
    · cases hr : K.svcReadDebugProcessMemory
        (s.calls ++ [Call.svcQueryDebugProcessMemory s.report.debug_handle
          d.info.exception.specific.user_break_address])
        s.report.debug_handle d.info.exception.specific.user_break_address 4 <;>
        simp [hc, hv]
    · simp [hc, hv]
  · simp [hc]

/-- C4 as stated fails: with the capability absent, a break address that
`IsAddressReadable` accepts for 4 bytes and a memory read that would succeed
with the value `0x1234`, `HandleException` issues neither call and leaves the
default code of a user break, `0x0CA8`. -/
theorem HandleException_UserBreak_value_read_counterexample :
    ¬ ∀ (K : Kernel) (D : Header) (s : Sys) (d : DebugEventInfo) (b : Nat → Nat),
        d.info.exception.type = .UserBreak →
        (IsAddressReadable K s d.info.exception.specific.user_break_address 4).1 = true →
        K.svcReadDebugProcessMemory
            (s.calls ++ [Call.svcQueryDebugProcessMemory s.report.debug_handle
              d.info.exception.specific.user_break_address])
            s.report.debug_handle d.info.exception.specific.user_break_address 4 = some b →
        (HandleException K D s d).report.result = leBytes b 4 := by
  intro h
  have h1 := h (exKernel false 0 exRegion exMemory) exHeader (exSys 1)
    (exExceptionEvent .UserBreak 0x2010) (bytesOf 0x1234) rfl (by decide) rfl
  revert h1
  decide

/-- C4, amended: for every user break event, if the extended capability is
present, the address embedded in the break record passes `IsAddressReadable`
for the 4 bytes of a result code, and the memory read at that address
succeeds, then after `HandleException` the result code of the report is the
value read from the target. -/
theorem HandleException_UserBreak_value_read (K : Kernel) (D : Header) (s : Sys)
    (d : DebugEventInfo) (b : Nat → Nat)
    (ht : d.info.exception.type = .UserBreak)
    (hcap : K.kernelAbove500 = true)
    (hv : (IsAddressReadable K s d.info.exception.specific.user_break_address 4).1 = true)
    (hr : K.svcReadDebugProcessMemory
            (s.calls ++ [Call.svcQueryDebugProcessMemory s.report.debug_handle
              d.info.exception.specific.user_break_address])
            s.report.debug_handle d.info.exception.specific.user_break_address 4 = some b) :
    (HandleException K D s d).report.result = leBytes b 4 := by
  rw [HandleException_UserBreak_result K D s d ht, hcap, hv, hr]
  rfl

/-- Witness of C4 amended: with the capability present, the break address
`0x2010` inside a readable region and the value `0x1234` in the target, the
result code becomes `0x1234`. -/
theorem HandleException_UserBreak_value_read_witness :
    (HandleException (exKernel true 0 exRegion exMemory) exHeader (exSys 1)
      (exExceptionEvent .UserBreak 0x2010)).report.result = 0x1234 :=
  (HandleException_UserBreak_value_read (exKernel true 0 exRegion exMemory)
    exHeader (exSys 1) (exExceptionEvent .UserBreak 0x2010) (bytesOf 0x1234)
    rfl rfl (by decide) rfl).trans (by decide)

/-- C5: for every user break event, (1) if the extended capability is absent
the result code after `HandleException` is the default code of a user break
and neither a memory query nor a memory read is issued; (2) if the break
address fails `IsAddressReadable` for 4 bytes the result code is the default
code and no memory read is issued; (3) if the memory read fails the result
code is the default code. -/
theorem HandleException_UserBreak_default (K : Kernel) (D : Header) (s : Sys)
    (d : DebugEventInfo) (ht : d.info.exception.type = .UserBreak) :
    (K.kernelAbove500 = false →
        (HandleException K D s d).report.result = D.UserBreak
        ∧ ∀ c ∈ issued s (HandleException K D s d), c.isRead = false ∧ c.isQuery = false)
    ∧ ((IsAddressReadable K s d.info.exception.specific.user_break_address 4).1 = false →
        (HandleException K D s d).report.result = D.UserBreak
        ∧ ∀ c ∈ issued s (HandleException K D s d), c.isRead = false)
    ∧ (K.svcReadDebugProcessMemory
            (s.calls ++ [Call.svcQueryDebugProcessMemory s.report.debug_handle
              d.info.exception.specific.user_break_address])
            s.report.debug_handle d.info.exception.specific.user_break_address 4 = none →
        (HandleException K D s d).report.result = D.UserBreak) := by
  rw [HandleException_UserBreak_result K D s d ht,
    issued_of_calls (HandleException_calls K D s d), ht]
  refine ⟨fun hc => ?_, fun hv => ?_, fun hr => ?_⟩
  · simp [hc, Call.isRead, Call.isQuery]
  · simp only [hv, Bool.and_false, Bool.false_eq_true, if_false, true_and]
    split_ifs <;> simp [Call.isRead]
  · rw [hr]; simp

/-- Witness of C5: the three cases on concrete kernels: capability absent;
break address `0x4000` outside the readable region; every read failing. -/
theorem HandleException_UserBreak_default_witness :
    ((HandleException (exKernel false 0 exRegion exMemory) exHeader (exSys 1)
        (exExceptionEvent .UserBreak 0x2010)).report.result = exHeader.UserBreak
      ∧ ∀ c ∈ issued (exSys 1) (HandleException
          (exKernel false 0 exRegion exMemory) exHeader (exSys 1)
          (exExceptionEvent .UserBreak 0x2010)), c.isRead = false ∧ c.isQuery = false)
    ∧ ((HandleException (exKernel true 0 exRegion exMemory) exHeader (exSys 1)
        (exExceptionEvent .UserBreak 0x4000)).report.result = exHeader.UserBreak
      ∧ ∀ c ∈ issued (exSys 1) (HandleException
          (exKernel true 0 exRegion exMemory) exHeader (exSys 1)
          (exExceptionEvent .UserBreak 0x4000)), c.isRead = false)
    ∧ (HandleException (exKernel true 0 exRegion noMemory) exHeader (exSys 1)
        (exExceptionEvent .UserBreak 0x2010)).report.result = exHeader.UserBreak :=
  ⟨(HandleException_UserBreak_default (exKernel false 0 exRegion exMemory)
      exHeader (exSys 1) (exExceptionEvent .UserBreak 0x2010) rfl).1 rfl,
   (HandleException_UserBreak_default (exKernel true 0 exRegion exMemory)
      exHeader (exSys 1) (exExceptionEvent .UserBreak 0x4000) rfl).2.1 (by decide),
   (HandleException_UserBreak_default (exKernel true 0 exRegion noMemory)
      exHeader (exSys 1) (exExceptionEvent .UserBreak 0x2010) rfl).2.2 rfl⟩

/-- C6 as stated fails: the break address `0x2010` is misaligned
(`0x2010 & 0xFFF = 0x10`), it lies in a readable region, the read succeeds
with the value `0x1234`, and `HandleException` stores `0x1234`, not the
default code `0x0CA8`. -/
theorem HandleException_UserBreak_misaligned_counterexample :
    ¬ ∀ (K : Kernel) (D : Header) (s : Sys) (d : DebugEventInfo),
        d.info.exception.type = .UserBreak →
        d.info.exception.specific.user_break_address &&& 0xFFF ≠ 0 →
        (HandleException K D s d).report.result = D.UserBreak := by
  intro h
  have h1 := h (exKernel true 0 exRegion exMemory) exHeader (exSys 1)
    (exExceptionEvent .UserBreak 0x2010) rfl (by decide)
  revert h1
  decide

/-- C6, amended: for every user break event whose embedded result address is
misaligned (`address & 0xFFF != 0`), the result code after `HandleException`
is the default code of a user break when the capability is absent, or the
address fails `IsAddressReadable` for 4 bytes, or the read fails; and it is
the value read from the target when the capability is present, the address
passes `IsAddressReadable` and the read succeeds: the alignment of the address
is not tested. -/
theorem HandleException_UserBreak_misaligned (K : Kernel) (D : Header) (s : Sys)
    (d : DebugEventInfo)
    (ht : d.info.exception.type = .UserBreak)
    (_hmis : d.info.exception.specific.user_break_address &&& 0xFFF ≠ 0) :
    (K.kernelAbove500 = false
        ∨ (IsAddressReadable K s d.info.exception.specific.user_break_address 4).1 = false
        ∨ K.svcReadDebugProcessMemory
            (s.calls ++ [Call.svcQueryDebugProcessMemory s.report.debug_handle
              d.info.exception.specific.user_break_address])
            s.report.debug_handle d.info.exception.specific.user_break_address 4 = none →
      (HandleException K D s d).report.result = D.UserBreak)
    ∧ ∀ b, K.kernelAbove500 = true →
        (IsAddressReadable K s d.info.exception.specific.user_break_address 4).1 = true →
        K.svcReadDebugProcessMemory
            (s.calls ++ [Call.svcQueryDebugProcessMemory s.report.debug_handle
              d.info.exception.specific.user_break_address])
            s.report.debug_handle d.info.exception.specific.user_break_address 4 = some b →
        (HandleException K D s d).report.result = leBytes b 4 := by
  rw [HandleException_UserBreak_result K D s d ht]
  constructor
  · rintro (hc | hv | hr)
    · simp [hc]
    · simp [hv]
    · rw [hr]; simp
  · intro b hc hv hr
    rw [hc, hv, hr]; rfl

/-- Witness of C6 amended: at the misaligned break address `0x2010` the value
`0x1234` is read and stored; when the read fails the default code stays. -/
theorem HandleException_UserBreak_misaligned_witness :
    (0x2010 &&& 0xFFF ≠ 0)
    ∧ (HandleException (exKernel true 0 exRegion exMemory) exHeader (exSys 1)
        (exExceptionEvent .UserBreak 0x2010)).report.result = 0x1234
    ∧ (HandleException (exKernel true 0 exRegion noMemory) exHeader (exSys 1)
        (exExceptionEvent .UserBreak 0x2010)).report.result = exHeader.UserBreak :=
  ⟨by decide,
   ((HandleException_UserBreak_misaligned (exKernel true 0 exRegion exMemory)
      exHeader (exSys 1) (exExceptionEvent .UserBreak 0x2010) rfl (by decide)).2
      (bytesOf 0x1234) rfl (by decide) rfl).trans (by decide),
   (HandleException_UserBreak_misaligned (exKernel true 0 exRegion noMemory)
      exHeader (exSys 1) (exExceptionEvent .UserBreak 0x2010) rfl (by decide)).1
      (Or.inr (Or.inr rfl))⟩

/-! ## The payload descriptor and the payload read -/

/-- C7: when `HandleAttachProcess` accepts a descriptor (the capability is
present, the process is an application, the 16 bytes of the control structure
pass `IsAddressReadable`, both reads succeed, the descriptor address read is
non-zero and 4 KiB-aligned), the stored payload size is the minimum of the
declared size and the payload capacity, and the stored payload address is the
address read; in particular a declared size of the capacity plus 100 is stored
as exactly the capacity. -/
theorem HandleAttachProcess_accept (K : Kernel) (D : Header) (s : Sys) (d : DebugEventInfo)
    (b1 b2 : Nat → Nat)
    (hcap : K.kernelAbove500 = true)
    (happ : d.info.attach_process.is_application = true)
    (hv : (IsAddressReadable K s d.info.attach_process.user_exception_context_address 16).1
            = true)
    (hr1 : K.svcReadDebugProcessMemory
            (s.calls ++ [Call.svcQueryDebugProcessMemory s.report.debug_handle
              d.info.attach_process.user_exception_context_address])
            s.report.debug_handle d.info.attach_process.user_exception_context_address 8
            = some b1)
    (hnz : leBytes b1 8 ≠ 0)
    (hal : leBytes b1 8 &&& 0xFFF = 0)
    (hr2 : K.svcReadDebugProcessMemory
            (s.calls ++ [Call.svcQueryDebugProcessMemory s.report.debug_handle
                d.info.attach_process.user_exception_context_address,
              Call.svcReadDebugProcessMemory s.report.debug_handle
                d.info.attach_process.user_exception_context_address 8])
            s.report.debug_handle
            ((d.info.attach_process.user_exception_context_address + 8) % 2 ^ 64) 8
            = some b2) :
    (HandleAttachProcess K D s d).report.dying_message_size
        = min (leBytes b2 8) D.dying_message_capacity
    ∧ (HandleAttachProcess K D s d).report.dying_message_address = leBytes b1 8
    ∧ (leBytes b2 8 = D.dying_message_capacity + 100 →
        (HandleAttachProcess K D s d).report.dying_message_size = D.dying_message_capacity) := by
  rw [IsAddressReadable_fst] at hv
  have hr2' : K.svcReadDebugProcessMemory
            (s.calls ++ [Call.svcQueryDebugProcessMemory s.report.debug_handle
                d.info.attach_process.user_exception_context_address] ++
              [Call.svcReadDebugProcessMemory s.report.debug_handle
                d.info.attach_process.user_exception_context_address 8])
            s.report.debug_handle
            ((d.info.attach_process.user_exception_context_address + 8) % 2 ^ 64) 8
            = some b2 := by simpa using hr2
  have hsz : (HandleAttachProcess K D s d).report.dying_message_size
        = (if leBytes b2 8 > D.dying_message_capacity then D.dying_message_capacity
            else leBytes b2 8)
      ∧ (HandleAttachProcess K D s d).report.dying_message_address = leBytes b1 8 := by
    simp only [HandleAttachProcess, IsApplication, IsAddressReadable_fst,
      IsAddressReadable_calls, IsAddressReadable_report, svcRead, Sys.log, hcap, happ,
      hr1, hr2', hnz, hal, Nat.reduceAdd, hv]
    simp [hnz]
  refine ⟨?_, hsz.2, ?_⟩
  · rw [hsz.1]
    split_ifs with h
    · exact (Nat.min_eq_right (Nat.le_of_lt h)).symm
    · exact (Nat.min_eq_left (Nat.le_of_not_lt h)).symm
  · intro h100
    rw [hsz.1, h100]
    simp

/-- Witness of C7: the control structure at `0x2000` holds the descriptor
address `0x5000` and the declared size `0x1064`, the capacity `0x1000` plus
100; the stored size is `0x1000` and the stored address `0x5000`. -/
theorem HandleAttachProcess_accept_witness :
    (HandleAttachProcess (exKernel true 0 exRegion exMemory) exHeader (exSys 1)
        exAttachEvent).report.dying_message_size = 0x1000
    ∧ (HandleAttachProcess (exKernel true 0 exRegion exMemory) exHeader (exSys 1)
        exAttachEvent).report.dying_message_address = 0x5000 :=
  ⟨(HandleAttachProcess_accept (exKernel true 0 exRegion exMemory) exHeader (exSys 1)
      exAttachEvent (bytesOf 0x5000) (bytesOf 0x1064) rfl rfl (by decide) rfl (by decide)
      (by decide) rfl).2.2 (by decide),
   ((HandleAttachProcess_accept (exKernel true 0 exRegion exMemory) exHeader (exSys 1)
      exAttachEvent (bytesOf 0x5000) (bytesOf 0x1064) rfl rfl (by decide) rfl (by decide)
      (by decide) rfl).2.1).trans (by decide)⟩

/-- C8: `ProcessDyingMessage` issues a memory read if and only if the
capability is present, the stored descriptor address is non-zero and 4
KiB-aligned, the stored size does not exceed the payload capacity, the report
is open and successful, and `IsAddressReadable` accepts the range of the stored
address and size; a read that is issued is the read of exactly the stored
address and the stored size, there is at most one, and in every case the stored
address and size are left unchanged. -/
theorem ProcessDyingMessage_read_iff (K : Kernel) (D : Header) (s : Sys) :
    ((∃ c ∈ issued s (ProcessDyingMessage K D s), c.isRead = true) ↔
        (K.kernelAbove500 = true
          ∧ s.report.dying_message_address ≠ 0
          ∧ s.report.dying_message_address &&& 0xFFF = 0
          ∧ s.report.dying_message_size ≤ D.dying_message_capacity
          ∧ IsOpen s.report = true
          ∧ D.WasSuccessful s.report = true
          ∧ (IsAddressReadable K s s.report.dying_message_address
                s.report.dying_message_size).1 = true))
    ∧ (∀ c ∈ issued s (ProcessDyingMessage K D s), c.isRead = true →
        c = Call.svcReadDebugProcessMemory s.report.debug_handle
              s.report.dying_message_address s.report.dying_message_size)
    ∧ (List.filter Call.isRead (issued s (ProcessDyingMessage K D s))).length ≤ 1
    ∧ (ProcessDyingMessage K D s).report.dying_message_address
        = s.report.dying_message_address
    ∧ (ProcessDyingMessage K D s).report.dying_message_size = s.report.dying_message_size := by
  refine ⟨?_, ?_, ?_, ?_, ?_⟩
  · rw [issued_of_calls (ProcessDyingMessage_calls K D s)]
    split_ifs with h1 h2 h3 h4 h5 <;> simp_all [Call.isRead]
    · intro hnz hal
      rcases h2 with h | h
      · exact absurd h hnz
      · exact absurd hal h
    · intro ho hw
      rcases h4 with h | h <;> simp_all
  · rw [issued_of_calls (ProcessDyingMessage_calls K D s)]
    split_ifs <;> simp [Call.isRead]
  · rw [issued_of_calls (ProcessDyingMessage_calls K D s)]
    split_ifs <;> simp [Call.isRead, List.filter]
  · simp only [ProcessDyingMessage]
    split_ifs <;> (try split) <;> simp [svcRead, Sys.log, IsAddressReadable_report]
  · simp only [ProcessDyingMessage]
    split_ifs <;> (try split) <;> simp [svcRead, Sys.log, IsAddressReadable_report]

/-- Witness of C8: from an open, successful report that stores the descriptor
`(0x2000, 0x40)` of a readable region, the payload read is issued, for exactly
that address and size. -/
theorem ProcessDyingMessage_read_iff_witness :
    (∃ c ∈ issued exDyingSys
        (ProcessDyingMessage (exKernel true 0 exRegion exMemory) exHeader exDyingSys),
        c.isRead = true)
    ∧ issued exDyingSys
        (ProcessDyingMessage (exKernel true 0 exRegion exMemory) exHeader exDyingSys)
        = [Call.svcQueryDebugProcessMemory 1 0x2000,
           Call.svcReadDebugProcessMemory 1 0x2000 0x40] :=
  ⟨(ProcessDyingMessage_read_iff (exKernel true 0 exRegion exMemory) exHeader exDyingSys).1.2
      ⟨rfl, by decide, by decide, by decide, by decide, by decide, by decide⟩,
   by decide⟩

/-! ## The classification of the other fault kinds -/

/-- C9: for an exception event of kind UndefinedInstruction, DataAbort,
AlignmentFault or BadSvc the result code stored by `HandleException` is the
fixed code of that kind; an event of the same kind handled by any other kernel
(capability on or off, any memory contents) from any other report state stores
the same code; and the only call issued is the capture of the faulting thread:
no memory query and no memory read. -/
theorem HandleException_fixed_code (K K' : Kernel) (D : Header) (s s' : Sys)
    (d d' : DebugEventInfo)
    (hk : d.info.exception.type = .UndefinedInstruction
        ∨ d.info.exception.type = .DataAbort
        ∨ d.info.exception.type = .AlignmentFault
        ∨ d.info.exception.type = .BadSvc)
    (hsame : d'.info.exception.type = d.info.exception.type) :
    (d.info.exception.type = .UndefinedInstruction →
        (HandleException K D s d).report.result = D.UndefinedInstruction)
    ∧ (d.info.exception.type = .DataAbort →
        (HandleException K D s d).report.result = D.DataAbort)
    ∧ (d.info.exception.type = .AlignmentFault →
        (HandleException K D s d).report.result = D.AlignmentFault)
    ∧ (d.info.exception.type = .BadSvc →
        (HandleException K D s d).report.result = D.BadSvc)
    ∧ (HandleException K' D s' d').report.result = (HandleException K D s d).report.result
    ∧ issued s (HandleException K D s d)
        = [Call.ReadFromProcess s.report.debug_handle d.thread_id (Is64Bit s.report)]
    ∧ ∀ c ∈ issued s (HandleException K D s d), c.isQuery = false ∧ c.isRead = false := by
  rw [issued_of_calls (HandleException_calls K D s d)]
  rcases hk with h | h | h | h <;> rw [h] at hsame <;>
    simp [HandleException, classifyException, h, hsame, Call.isQuery, Call.isRead]

/-- Witness of C9: a DataAbort event stores `0x04A8`, with the capability
present and a readable target as with the capability absent and no readable
memory, and only the capture of thread 7 is issued. -/
theorem HandleException_fixed_code_witness :
    (HandleException (exKernel true 0 exRegion exMemory) exHeader (exSys 1)
        (exExceptionEvent .DataAbort 0x2010)).report.result = 0x04A8
    ∧ (HandleException (exKernel false 1 topRegion noMemory) exHeader exDyingSys
        (exExceptionEvent .DataAbort 0)).report.result
      = (HandleException (exKernel true 0 exRegion exMemory) exHeader (exSys 1)
        (exExceptionEvent .DataAbort 0x2010)).report.result
    ∧ issued (exSys 1) (HandleException (exKernel true 0 exRegion exMemory) exHeader (exSys 1)
        (exExceptionEvent .DataAbort 0x2010)) = [Call.ReadFromProcess 1 7 false] :=
  ⟨(HandleException_fixed_code (exKernel true 0 exRegion exMemory)
      (exKernel false 1 topRegion noMemory) exHeader (exSys 1) exDyingSys
      (exExceptionEvent .DataAbort 0x2010) (exExceptionEvent .DataAbort 0)
      (Or.inr (Or.inl rfl)) rfl).2.1 rfl,
   (HandleException_fixed_code (exKernel true 0 exRegion exMemory)
      (exKernel false 1 topRegion noMemory) exHeader (exSys 1) exDyingSys
      (exExceptionEvent .DataAbort 0x2010) (exExceptionEvent .DataAbort 0)
      (Or.inr (Or.inl rfl)) rfl).2.2.2.2.1,
   (HandleException_fixed_code (exKernel true 0 exRegion exMemory)
      (exKernel false 1 topRegion noMemory) exHeader (exSys 1) exDyingSys
      (exExceptionEvent .DataAbort 0x2010) (exExceptionEvent .DataAbort 0)
      (Or.inr (Or.inl rfl)) rfl).2.2.2.2.2.1⟩

/-- C10: after `HandleException` the fault record stored for an event of kind
InstructionAbort or UnknownNine has its detail word `specific.raw` equal to
zero, whatever the event held; for UndefinedInstruction, DataAbort,
AlignmentFault, UserBreak and BadSvc the stored fault record, its detail
fields included, is the one of the event. -/
theorem HandleException_detail_field (K : Kernel) (D : Header) (s : Sys) (d : DebugEventInfo) :
    (d.info.exception.type = .InstructionAbort ∨ d.info.exception.type = .UnknownNine →
        (HandleException K D s d).report.exception_info.specific.raw = 0
        ∧ (HandleException K D s d).report.exception_info.type = d.info.exception.type)
    ∧ (d.info.exception.type = .UndefinedInstruction
        ∨ d.info.exception.type = .DataAbort
        ∨ d.info.exception.type = .AlignmentFault
        ∨ d.info.exception.type = .UserBreak
        ∨ d.info.exception.type = .BadSvc →
        (HandleException K D s d).report.exception_info = d.info.exception) := by
  constructor
  · rintro (h | h) <;> simp [HandleException, classifyException, h]
  · rintro (h | h | h | h | h) <;> try simp [HandleException, classifyException, h]
    simp only [IsAddressReadable_fst, IsAddressReadable_calls, IsAddressReadable_report,
      svcRead, Sys.log]
    by_cases hc : K.kernelAbove500 = true
    · by_cases hv : accepts K s.calls s.report.debug_handle
          d.info.exception.specific.user_break_address 4 = true
      · cases hr : K.svcReadDebugProcessMemory
          (s.calls ++ [Call.svcQueryDebugProcessMemory s.report.debug_handle
            d.info.exception.specific.user_break_address])
          s.report.debug_handle d.info.exception.specific.user_break_address 4 <;>
          simp [hc, hv]
      · simp [hc, hv, IsAddressReadable_report]
    · simp [hc]

/-- Witness of C10: an InstructionAbort event whose detail word is `0xABCD` is
stored with the detail word 0; a DataAbort event is stored as it came. -/
theorem HandleException_detail_field_witness :
    (exExceptionEvent .InstructionAbort 0x2010).info.exception.specific.raw = 0xABCD
    ∧ (HandleException (exKernel true 0 exRegion exMemory) exHeader (exSys 1)
        (exExceptionEvent .InstructionAbort 0x2010)).report.exception_info.specific.raw = 0
    ∧ (HandleException (exKernel true 0 exRegion exMemory) exHeader (exSys 1)
        (exExceptionEvent .DataAbort 0x2010)).report.exception_info
      = exException .DataAbort 0x2010 :=
  ⟨rfl,
   ((HandleException_detail_field (exKernel true 0 exRegion exMemory) exHeader (exSys 1)
      (exExceptionEvent .InstructionAbort 0x2010)).1 (Or.inl rfl)).1,
   (HandleException_detail_field (exKernel true 0 exRegion exMemory) exHeader (exSys 1)
      (exExceptionEvent .DataAbort 0x2010)).2 (Or.inr (Or.inl rfl))⟩

/-! ## Failing closed, the permission test, the ignored kinds -/

/-- C12: `IsAddressReadable` fails closed: for every address and size, if the
memory-region query fails (`R_FAILED` of its result code), the answer is
`false`, whatever the query left in the output descriptor; the descriptor is
handed back as the query left it and the only call issued is that query. -/
theorem IsAddressReadable_fails_closed (K : Kernel) (s : Sys) (a sz : Nat)
    (hfail : R_FAILED (K.svcQueryDebugProcessMemory s.calls s.report.debug_handle a).1 = true) :
    (IsAddressReadable K s a sz).1 = false
    ∧ (IsAddressReadable K s a sz).2.1
        = (K.svcQueryDebugProcessMemory s.calls s.report.debug_handle a).2
    ∧ issued s (IsAddressReadable K s a sz).2.2
        = [Call.svcQueryDebugProcessMemory s.report.debug_handle a] := by
  refine ⟨?_, ?_, issued_of_calls (IsAddressReadable_calls K s a sz)⟩
  · rw [IsAddressReadable_fst]; simp [accepts, hfail]
  · simp [IsAddressReadable, svcQuery, hfail]

/-- Witness of C12: the query fails with result code 1 while the output
descriptor describes a readable and writable page that contains the range
asked for; the answer is `false`. -/
theorem IsAddressReadable_fails_closed_witness :
    (exKernel true 1 exRegion exMemory).svcQueryDebugProcessMemory [] 1 0x2000
        = (1, exRegion)
    ∧ (IsAddressReadable (exKernel true 1 exRegion exMemory) (exSys 1) 0x2000 4).1
        = false :=
  ⟨rfl, (IsAddressReadable_fails_closed (exKernel true 1 exRegion exMemory) (exSys 1)
      0x2000 4 rfl).1⟩

/-- C17: the permission test of `IsAddressReadable` passes exactly for the two
permission values read-only and read-write: `IsAddressReadable` answers `true`
if and only if the query succeeds, the permission of the region is `Perm_R` or
`Perm_Rw`, and the bounds test of the source passes; so a read-only and a
read-write region are accepted whenever the query succeeds and the bounds test
passes, and every other permission is refused. In particular a permission with
the execute bit set makes `IsAddressReadable` answer `false`, read+execute and
read+write+execute included, although these contain the read bit. -/
theorem IsAddressReadable_permission_exact (K : Kernel) (s : Sys) (a sz : Nat) :
    ((IsAddressReadable K s a sz).1 = true ↔
        R_FAILED (K.svcQueryDebugProcessMemory s.calls s.report.debug_handle a).1 = false
        ∧ ((K.svcQueryDebugProcessMemory s.calls s.report.debug_handle a).2.perm = Perm_R
          ∨ (K.svcQueryDebugProcessMemory s.calls s.report.debug_handle a).2.perm = Perm_Rw)
        ∧ ¬ (a < (K.svcQueryDebugProcessMemory s.calls s.report.debug_handle a).2.addr
            ∨ ((K.svcQueryDebugProcessMemory s.calls s.report.debug_handle a).2.addr
                + (K.svcQueryDebugProcessMemory s.calls s.report.debug_handle a).2.size)
                  % 2 ^ 64 < (a + sz) % 2 ^ 64))
    ∧ ((((K.svcQueryDebugProcessMemory s.calls s.report.debug_handle a).2.perm ||| Perm_W)
          != Perm_Rw) = false ↔
        (K.svcQueryDebugProcessMemory s.calls s.report.debug_handle a).2.perm = Perm_R
        ∨ (K.svcQueryDebugProcessMemory s.calls s.report.debug_handle a).2.perm = Perm_Rw)
    ∧ ((K.svcQueryDebugProcessMemory s.calls s.report.debug_handle a).2.perm &&& Perm_X ≠ 0 →
        (IsAddressReadable K s a sz).1 = false)
    ∧ (Perm_R ||| Perm_X) &&& Perm_R ≠ 0
    ∧ (Perm_R ||| Perm_W ||| Perm_X) &&& Perm_R ≠ 0 := by
  have hiff : (IsAddressReadable K s a sz).1 = true ↔
      R_FAILED (K.svcQueryDebugProcessMemory s.calls s.report.debug_handle a).1 = false
      ∧ ((K.svcQueryDebugProcessMemory s.calls s.report.debug_handle a).2.perm = Perm_R
        ∨ (K.svcQueryDebugProcessMemory s.calls s.report.debug_handle a).2.perm = Perm_Rw)
      ∧ ¬ (a < (K.svcQueryDebugProcessMemory s.calls s.report.debug_handle a).2.addr
          ∨ ((K.svcQueryDebugProcessMemory s.calls s.report.debug_handle a).2.addr
              + (K.svcQueryDebugProcessMemory s.calls s.report.debug_handle a).2.size)
                % 2 ^ 64 < (a + sz) % 2 ^ 64) := by
    rw [IsAddressReadable_fst, ← perm_or_W_eq_Rw_iff]
    simp only [accepts, Bool.and_eq_true, Bool.not_eq_true', beq_iff_eq, Bool.or_eq_false_iff,
      decide_eq_false_iff_not, not_or, and_assoc]
  refine ⟨hiff, ?_, ?_, by decide, by decide⟩
  · rw [← perm_or_W_eq_Rw_iff]; simp
  · intro hx
    by_contra hne
    rcases (hiff.1 (by simpa using hne)).2.1 with e | e <;> rw [e] at hx <;>
      exact hx (by decide)

/-- Witness of C17: a read-only and a read-write region that contain the range
asked for are accepted (from right to left through the equivalence); a
read+execute and a read+write+execute region that contain it are refused. -/
theorem IsAddressReadable_permission_exact_witness :
    (IsAddressReadable (exKernel true 0 { exRegion with perm := Perm_R } exMemory)
        (exSys 1) 0x2000 4).1 = true
    ∧ (IsAddressReadable (exKernel true 0 { exRegion with perm := Perm_Rw } exMemory)
        (exSys 1) 0x2000 4).1 = true
    ∧ (IsAddressReadable (exKernel true 0 { exRegion with perm := Perm_R ||| Perm_X } exMemory)
        (exSys 1) 0x2000 4).1 = false
    ∧ (IsAddressReadable
        (exKernel true 0 { exRegion with perm := Perm_R ||| Perm_W ||| Perm_X } exMemory)
        (exSys 1) 0x2000 4).1 = false :=
  ⟨(IsAddressReadable_permission_exact _ _ _ _).1.2 ⟨rfl, Or.inl rfl, by decide⟩,
   (IsAddressReadable_permission_exact _ _ _ _).1.2 ⟨rfl, Or.inr rfl, by decide⟩,
   (IsAddressReadable_permission_exact _ _ _ _).2.2.1 (by decide),
   (IsAddressReadable_permission_exact _ _ _ _).2.2.1 (by decide)⟩

/-- C13: for an exception event of kind DebuggerAttached, BreakPoint or
DebuggerBreak, and for any kind that is none of the enumerators,
`HandleException` returns right after storing the fault record: the result
code is unchanged, no call is issued (no memory query, no memory read, no
capture of the faulting thread), the captured thread is unchanged, and the
report differs from the one before in the stored fault record only. -/
theorem HandleException_ignored (K : Kernel) (D : Header) (s : Sys) (d : DebugEventInfo)
    (hk : d.info.exception.type = .DebuggerAttached
        ∨ d.info.exception.type = .BreakPoint
        ∨ d.info.exception.type = .DebuggerBreak
        ∨ ∃ n, d.info.exception.type = .other n) :
    (HandleException K D s d).report.result = s.report.result
    ∧ issued s (HandleException K D s d) = []
    ∧ (HandleException K D s d).report.crashed_thread_info = s.report.crashed_thread_info
    ∧ (HandleException K D s d).report
        = { s.report with exception_info := d.info.exception } := by
  rw [issued_of_calls (HandleException_calls K D s d)]
  rcases hk with h | h | h | ⟨n, h⟩ <;>
    simp [HandleException, classifyException, h]

/-- Witness of C13: a DebuggerBreak event and an event of the unknown kind 42
leave the result code `0xC6A8` and issue no call. -/
theorem HandleException_ignored_witness :
    ((HandleException (exKernel true 0 exRegion exMemory) exHeader (exSys 1)
        (exExceptionEvent .DebuggerBreak 0x2010)).report.result = 0xC6A8
      ∧ issued (exSys 1) (HandleException (exKernel true 0 exRegion exMemory) exHeader
          (exSys 1) (exExceptionEvent .DebuggerBreak 0x2010)) = [])
    ∧ (HandleException (exKernel true 0 exRegion exMemory) exHeader (exSys 1)
        (exExceptionEvent (.other 42) 0x2010)).report.result = 0xC6A8 :=
  ⟨⟨(HandleException_ignored (exKernel true 0 exRegion exMemory) exHeader (exSys 1)
        (exExceptionEvent .DebuggerBreak 0x2010) (Or.inr (Or.inr (Or.inl rfl)))).1,
     (HandleException_ignored (exKernel true 0 exRegion exMemory) exHeader (exSys 1)
        (exExceptionEvent .DebuggerBreak 0x2010) (Or.inr (Or.inr (Or.inl rfl)))).2.1⟩,
   (HandleException_ignored (exKernel true 0 exRegion exMemory) exHeader (exSys 1)
      (exExceptionEvent (.other 42) 0x2010) (Or.inr (Or.inr (Or.inr ⟨42, rfl⟩)))).1⟩

/-! ## Attach failure and the atomic descriptor update -/

/-- C11: if attaching to the target fails, `BuildReport` returns, for every
fuel of the event loop, the state in which the only call issued is the attach
itself (no debug event is polled, no memory query or read is issued, no thread
and no code region is captured, no payload extraction is attempted, no handle
is closed) and in which the report is the one before the call with the
extra-info flag stored. -/
theorem BuildReport_attach_failure (K : Kernel) (D : Header) (fuel : Nat) (s : Sys)
    (pid : Nat) (flag : Bool)
    (hfail : K.svcDebugActiveProcess s.calls pid = none) :
    BuildReport K D fuel s pid flag
      = some { report := { s.report with has_extra_info := flag },
               calls := s.calls ++ [Call.svcDebugActiveProcess pid] } := by
  simp [BuildReport, OpenProcess, Sys.log, hfail]

/-- Witness of C11: on a kernel that refuses every attach, `BuildReport` with
no fuel at all returns the report it started from with the flag stored, and
the attach is the only call. -/
theorem BuildReport_attach_failure_witness :
    BuildReport { exKernel true 0 exRegion exMemory with
        svcDebugActiveProcess := fun _ _ => none } exHeader 0 (exSys 0) 0x51 true
      = some { report := { exReport 0 with has_extra_info := true },
               calls := [Call.svcDebugActiveProcess 0x51] } :=
  BuildReport_attach_failure _ exHeader 0 (exSys 0) 0x51 true rfl

/-- The report after `HandleAttachProcess`: the process information is the one
of the event, and the payload descriptor is either the one before or, on the
accepting path, the pair read from the control structure with the size
capped. -/
theorem HandleAttachProcess_report (K : Kernel) (D : Header) (s : Sys) (d : DebugEventInfo) :
    (HandleAttachProcess K D s d).report =
      if K.kernelAbove500 && d.info.attach_process.is_application
          && (IsAddressReadable K s d.info.attach_process.user_exception_context_address 16).1
      then
        match K.svcReadDebugProcessMemory
            (s.calls ++ [Call.svcQueryDebugProcessMemory s.report.debug_handle
              d.info.attach_process.user_exception_context_address])
            s.report.debug_handle d.info.attach_process.user_exception_context_address 8,
          K.svcReadDebugProcessMemory
            (s.calls ++ [Call.svcQueryDebugProcessMemory s.report.debug_handle
                d.info.attach_process.user_exception_context_address,
              Call.svcReadDebugProcessMemory s.report.debug_handle
                d.info.attach_process.user_exception_context_address 8])
            s.report.debug_handle
            ((d.info.attach_process.user_exception_context_address + 8) % 2 ^ 64) 8 with
        | some b1, some b2 =>
          if leBytes b1 8 == 0 || (leBytes b1 8 &&& 0xFFF) != 0 then
            { s.report with process_info := d.info.attach_process }
          else
            { s.report with
              process_info := d.info.attach_process
              dying_message_address := leBytes b1 8
              dying_message_size := min (leBytes b2 8) D.dying_message_capacity }
        | _, _ => { s.report with process_info := d.info.attach_process }
      else { s.report with process_info := d.info.attach_process } := by
  simp only [HandleAttachProcess, IsApplication, IsAddressReadable_fst,
    IsAddressReadable_calls, IsAddressReadable_report, svcRead, Sys.log]
  by_cases hg : (K.kernelAbove500 && d.info.attach_process.is_application) = true
  · by_cases hv : accepts K s.calls s.report.debug_handle
        d.info.attach_process.user_exception_context_address 16 = true
    · cases hr1 : K.svcReadDebugProcessMemory
          (s.calls ++ [Call.svcQueryDebugProcessMemory s.report.debug_handle
            d.info.attach_process.user_exception_context_address])
          s.report.debug_handle d.info.attach_process.user_exception_context_address 8 with
      | none => simp [hg, hv]
      | some b1 =>
        cases hr2 : K.svcReadDebugProcessMemory
            (s.calls ++ [Call.svcQueryDebugProcessMemory s.report.debug_handle
                d.info.attach_process.user_exception_context_address,
              Call.svcReadDebugProcessMemory s.report.debug_handle
                d.info.attach_process.user_exception_context_address 8])
            s.report.debug_handle
            ((d.info.attach_process.user_exception_context_address + 8) % 2 ^ 64) 8 with
        | none =>
          have hr2' := hr2
          norm_num at hr2'
          by_cases hb : (leBytes b1 8 == 0 || (leBytes b1 8 &&& 0xFFF) != 0) = true
          · simp [hg, hv, hb]
          · simp [hg, hv, hb, hr2']
        | some b2 =>
          have hr2' := hr2
          norm_num at hr2'
          by_cases hb : (leBytes b1 8 == 0 || (leBytes b1 8 &&& 0xFFF) != 0) = true
          · simp [hg, hv, hb]
          · simp [hg, hv, hb, hr2', Nat.min_def]
            split_ifs <;> omega
    · simp [hg, hv]
  · simp [hg]

/-- C15: descriptor parsing in `HandleAttachProcess` is atomic. If the
capability is absent, or the process is not an application, or the 16 bytes of
the control structure fail `IsAddressReadable`, or the first read fails, or the
descriptor address read is zero or not 4 KiB-aligned, or the second read fails,
then the stored payload address and the stored payload size both keep their
previous values, and the process information is the one of the event. In every
case the process information is the one of the event and the descriptor is
either left as it was or replaced as a pair. -/
theorem HandleAttachProcess_atomic (K : Kernel) (D : Header) (s : Sys) (d : DebugEventInfo) :
    (K.kernelAbove500 = false
      ∨ d.info.attach_process.is_application = false
      ∨ (IsAddressReadable K s d.info.attach_process.user_exception_context_address 16).1
          = false
      ∨ K.svcReadDebugProcessMemory
          (s.calls ++ [Call.svcQueryDebugProcessMemory s.report.debug_handle
            d.info.attach_process.user_exception_context_address])
          s.report.debug_handle d.info.attach_process.user_exception_context_address 8 = none
      ∨ (∃ b1, K.svcReadDebugProcessMemory
          (s.calls ++ [Call.svcQueryDebugProcessMemory s.report.debug_handle
            d.info.attach_process.user_exception_context_address])
          s.report.debug_handle d.info.attach_process.user_exception_context_address 8
            = some b1
          ∧ (leBytes b1 8 = 0 ∨ leBytes b1 8 &&& 0xFFF ≠ 0))
      ∨ K.svcReadDebugProcessMemory
          (s.calls ++ [Call.svcQueryDebugProcessMemory s.report.debug_handle
              d.info.attach_process.user_exception_context_address,
            Call.svcReadDebugProcessMemory s.report.debug_handle
              d.info.attach_process.user_exception_context_address 8])
          s.report.debug_handle
          ((d.info.attach_process.user_exception_context_address + 8) % 2 ^ 64) 8 = none →
      (HandleAttachProcess K D s d).report.dying_message_address
          = s.report.dying_message_address
      ∧ (HandleAttachProcess K D s d).report.dying_message_size = s.report.dying_message_size
      ∧ (HandleAttachProcess K D s d).report.process_info = d.info.attach_process)
    ∧ (HandleAttachProcess K D s d).report.process_info = d.info.attach_process
    ∧ (((HandleAttachProcess K D s d).report.dying_message_address
            = s.report.dying_message_address
          ∧ (HandleAttachProcess K D s d).report.dying_message_size
            = s.report.dying_message_size)
        ∨ ∃ b1 b2,
          (HandleAttachProcess K D s d).report.dying_message_address = leBytes b1 8
          ∧ (HandleAttachProcess K D s d).report.dying_message_size
              = min (leBytes b2 8) D.dying_message_capacity) := by
  rw [HandleAttachProcess_report]
  refine ⟨?_, ?_, ?_⟩
  · rintro (h | h | h | h | ⟨b1, h, hb⟩ | h)
    · simp [h]
    · simp [h]
    · simp [h]
    · simp [h]
    · rw [h]
      have hb' : (leBytes b1 8 == 0 || (leBytes b1 8 &&& 0xFFF) != 0) = true := by
        rcases hb with hb | hb <;> simp [hb]
      split_ifs <;> (try split) <;> simp_all
    · rw [h]
      split_ifs <;> (try split) <;> simp_all
  · split_ifs <;> (try split) <;> (try split_ifs) <;> rfl
  · split_ifs
    · split
      · split_ifs
        · exact Or.inl ⟨rfl, rfl⟩
        · exact Or.inr ⟨_, _, rfl, rfl⟩
      · exact Or.inl ⟨rfl, rfl⟩
    · exact Or.inl ⟨rfl, rfl⟩

/-- Witness of C15: for a process that is not an application, and for an
application whose control structure holds the descriptor address 0 (every read
answers the word 0), the stored descriptor of `exDyingSys` stays
`(0x2000, 0x40)` while the process information is replaced. -/
theorem HandleAttachProcess_atomic_witness :
    ((HandleAttachProcess (exKernel true 0 exRegion exMemory) exHeader exDyingSys
        exSystemAttachEvent).report.dying_message_address = 0x2000
      ∧ (HandleAttachProcess (exKernel true 0 exRegion exMemory) exHeader exDyingSys
        exSystemAttachEvent).report.dying_message_size = 0x40
      ∧ (HandleAttachProcess (exKernel true 0 exRegion exMemory) exHeader exDyingSys
        exSystemAttachEvent).report.process_info = exSystemAttachEvent.info.attach_process)
    ∧ ((HandleAttachProcess (exKernel true 0 exRegion (fun _ => some (bytesOf 0))) exHeader
        exDyingSys exAttachEvent).report.dying_message_address = 0x2000
      ∧ (HandleAttachProcess (exKernel true 0 exRegion (fun _ => some (bytesOf 0))) exHeader
        exDyingSys exAttachEvent).report.dying_message_size = 0x40
      ∧ (HandleAttachProcess (exKernel true 0 exRegion (fun _ => some (bytesOf 0))) exHeader
        exDyingSys exAttachEvent).report.process_info = exAttachEvent.info.attach_process) :=
  ⟨(HandleAttachProcess_atomic (exKernel true 0 exRegion exMemory) exHeader exDyingSys
      exSystemAttachEvent).1 (Or.inr (Or.inl rfl)),
   (HandleAttachProcess_atomic (exKernel true 0 exRegion (fun _ => some (bytesOf 0))) exHeader
      exDyingSys exAttachEvent).1
      (Or.inr (Or.inr (Or.inr (Or.inr (Or.inl ⟨bytesOf 0, rfl, Or.inl (by decide)⟩)))))⟩

/-! ## The event loop -/

/-- The loop of `ProcessExceptions` returns exactly when the kernel runs out
of events within the fuel, and then in the state reached by dispatching the
events polled, followed by the poll that found none. -/
theorem pollEvents_eq (K : Kernel) (D : Header) (fuel : Nat) (s : Sys) :
    pollEvents K D fuel s =
      if (polled K D fuel s).length < fuel then
        some ((dispatchAll K D s (polled K D fuel s)).log
          (Call.svcGetDebugEvent (dispatchAll K D s (polled K D fuel s)).report.debug_handle))
      else none := by
  induction fuel generalizing s with
  | zero => simp [pollEvents, polled]
  | succ n ih =>
    simp only [pollEvents, polled]
    split_ifs with hs h1 h2
    · simp only [dispatchAll]
      rw [ih]
      simp only [List.length_cons, Nat.add_lt_add_iff_right] at h1
      simp [h1]
    · simp only [List.length_cons, Nat.add_lt_add_iff_right] at h1
      rw [ih]
      simp [h1]
    · simp [dispatchAll]
    · simp at h2

/-- With more fuel than events, the loop returns. -/
theorem pollEvents_isSome (K : Kernel) (D : Header) (fuel : Nat) (s : Sys)
    (h : (polled K D fuel s).length < fuel) : (pollEvents K D fuel s).isSome = true := by
  rw [pollEvents_eq, if_pos h]; rfl

/-- The state after `IsAddressReadable`: the one before, with the query
recorded. -/
theorem IsAddressReadable_state (K : Kernel) (s : Sys) (a sz : Nat) :
    (IsAddressReadable K s a sz).2.2
      = s.log (Call.svcQueryDebugProcessMemory s.report.debug_handle a) := by
  simp only [IsAddressReadable, svcQuery]
  split_ifs <;> rfl

/-- What `HandleException` leaves alone: the session handle, the extra-info
flag, the process information, the payload descriptor and buffer, the code
list and the roster. -/
theorem HandleException_frame (K : Kernel) (D : Header) (s : Sys) (d : DebugEventInfo) :
    (HandleException K D s d).report.debug_handle = s.report.debug_handle
    ∧ (HandleException K D s d).report.has_extra_info = s.report.has_extra_info
    ∧ (HandleException K D s d).report.process_info = s.report.process_info
    ∧ (HandleException K D s d).report.dying_message_address = s.report.dying_message_address
    ∧ (HandleException K D s d).report.dying_message_size = s.report.dying_message_size
    ∧ (HandleException K D s d).report.dying_message = s.report.dying_message
    ∧ (HandleException K D s d).report.code_list = s.report.code_list
    ∧ (HandleException K D s d).report.thread_list = s.report.thread_list := by
  simp only [HandleException, classifyException, IsAddressReadable_fst,
    IsAddressReadable_calls, IsAddressReadable_report, svcRead, Sys.log, Is64Bit]
  cases ht : d.info.exception.type <;> simp only [] <;> try simp
  split_ifs with hc hv
  · cases hr : K.svcReadDebugProcessMemory
        (s.calls ++ [Call.svcQueryDebugProcessMemory s.report.debug_handle
          d.info.exception.specific.user_break_address])
        s.report.debug_handle d.info.exception.specific.user_break_address 4 <;> simp
  · simp
  · simp

/-- The extra-info flag is carried through `HandleException` unread. -/
theorem HandleException_withExtraInfo (K : Kernel) (D : Header) (s : Sys) (d : DebugEventInfo)
    (b : Bool) :
    HandleException K D (s.withExtraInfo b) d = (HandleException K D s d).withExtraInfo b := by
  simp only [HandleException, classifyException, IsAddressReadable_fst,
    IsAddressReadable_calls, IsAddressReadable_report, svcRead, Sys.log, Is64Bit,
    Sys.withExtraInfo]
  cases ht : d.info.exception.type <;> (simp only []; try simp)
  split_ifs with hc hv
  · cases hr : K.svcReadDebugProcessMemory
        (s.calls ++ [Call.svcQueryDebugProcessMemory s.report.debug_handle
          d.info.exception.specific.user_break_address])
        s.report.debug_handle d.info.exception.specific.user_break_address 4 <;> simp
  · simp
  · simp

/-- The extra-info flag is carried through `HandleAttachProcess` unread. -/
theorem HandleAttachProcess_withExtraInfo (K : Kernel) (D : Header) (s : Sys)
    (d : DebugEventInfo) (b : Bool) :
    HandleAttachProcess K D (s.withExtraInfo b) d
      = (HandleAttachProcess K D s d).withExtraInfo b := by
  simp only [HandleAttachProcess, IsApplication, IsAddressReadable_fst,
    IsAddressReadable_calls, IsAddressReadable_report, svcRead, Sys.log, Sys.withExtraInfo]
  split_ifs with hg hv
  · simp [IsAddressReadable_state, Sys.log]
  · cases hr1 : K.svcReadDebugProcessMemory
        (s.calls ++ [Call.svcQueryDebugProcessMemory s.report.debug_handle
          d.info.attach_process.user_exception_context_address])
        s.report.debug_handle d.info.attach_process.user_exception_context_address 8 with
    | none => simp
    | some b1 =>
      simp only []
      split_ifs with hb
      · simp
      · split <;> simp
  · simp

/-- The extra-info flag is carried through `ProcessDyingMessage` unread, as
long as the predicate `WasSuccessful` of the header does not read it. -/
theorem ProcessDyingMessage_withExtraInfo (K : Kernel) (D : Header) (s : Sys) (b : Bool)
    (hW : ∀ (r : CrashReport) (f : Bool),
      D.WasSuccessful { r with has_extra_info := f } = D.WasSuccessful r) :
    ProcessDyingMessage K D (s.withExtraInfo b) = (ProcessDyingMessage K D s).withExtraInfo b := by
  simp only [ProcessDyingMessage, IsOpen, IsAddressReadable_fst, IsAddressReadable_calls,
    IsAddressReadable_report, IsAddressReadable_state, svcRead, Sys.log, Sys.withExtraInfo, hW]
  split_ifs
  · rfl
  · rfl
  · rfl
  · rfl
  · rfl
  · cases hr : K.svcReadDebugProcessMemory
        (s.calls ++ [Call.svcQueryDebugProcessMemory s.report.debug_handle
          s.report.dying_message_address])
        s.report.debug_handle s.report.dying_message_address s.report.dying_message_size <;>
      simp

/-- The extra-info flag is carried through the dispatch of an event unread. -/
theorem dispatchEvent_withExtraInfo (K : Kernel) (D : Header) (s : Sys) (d : DebugEventInfo)
    (b : Bool) :
    dispatchEvent K D (s.withExtraInfo b) d = (dispatchEvent K D s d).withExtraInfo b := by
  simp only [dispatchEvent]
  split
  · exact HandleAttachProcess_withExtraInfo K D s d b
  · exact HandleException_withExtraInfo K D s d b
  all_goals rfl

/-- The extra-info flag is carried through the event loop unread. -/
theorem pollEvents_withExtraInfo (K : Kernel) (D : Header) (fuel : Nat) (s : Sys) (b : Bool) :
    pollEvents K D fuel (s.withExtraInfo b)
      = (pollEvents K D fuel s).map (fun t => t.withExtraInfo b) := by
  induction fuel generalizing s with
  | zero => rfl
  | succ n ih =>
    simp only [pollEvents]
    have hlog : (s.withExtraInfo b).log (Call.svcGetDebugEvent
        (s.withExtraInfo b).report.debug_handle)
          = (s.log (Call.svcGetDebugEvent s.report.debug_handle)).withExtraInfo b := rfl
    have hcalls : (s.withExtraInfo b).calls = s.calls := rfl
    have hh : (s.withExtraInfo b).report.debug_handle = s.report.debug_handle := rfl
    rw [hlog, hcalls, hh, dispatchEvent_withExtraInfo, ih]
    split_ifs <;> rfl

/-- The extra-info flag is carried through `ProcessExceptions` unread. -/
theorem ProcessExceptions_withExtraInfo (K : Kernel) (D : Header) (fuel : Nat) (s : Sys)
    (b : Bool) :
    ProcessExceptions K D fuel (s.withExtraInfo b)
      = (ProcessExceptions K D fuel s).map (fun t => t.withExtraInfo b) := by
  simp only [ProcessExceptions, pollEvents_withExtraInfo]
  have hopen : IsOpen (s.withExtraInfo b).report = IsOpen s.report := rfl
  rw [hopen]
  split_ifs <;> rfl

/-- The extra-info flag is carried through `OpenProcess` unread. -/
theorem OpenProcess_withExtraInfo (K : Kernel) (s : Sys) (pid : Nat) (b : Bool) :
    OpenProcess K (s.withExtraInfo b) pid
      = ((OpenProcess K s pid).1, (OpenProcess K s pid).2.withExtraInfo b) := by
  simp only [OpenProcess, Sys.withExtraInfo, Sys.log]
  cases K.svcDebugActiveProcess s.calls pid <;> rfl

/-- The extra-info flag is carried through `Close` unread. -/
theorem Close_withExtraInfo (s : Sys) (b : Bool) :
    Close (s.withExtraInfo b) = (Close s).withExtraInfo b := by
  simp only [Close, IsOpen, Sys.withExtraInfo]
  split_ifs <;> rfl

/-- The method `BuildReport` as the composition of `OpenProcess`, the event
loop and `finishReport`. -/
theorem BuildReport_eq (K : Kernel) (D : Header) (fuel : Nat) (s : Sys) (pid : Nat)
    (flag : Bool) :
    BuildReport K D fuel s pid flag =
      if (OpenProcess K (s.withExtraInfo flag) pid).1 then
        (ProcessExceptions K D fuel (OpenProcess K (s.withExtraInfo flag) pid).2).map
          (finishReport K D)
      else some (OpenProcess K (s.withExtraInfo flag) pid).2 := by
  unfold BuildReport
  show (if (OpenProcess K (s.withExtraInfo flag) pid).1 = true then
      match ProcessExceptions K D fuel (OpenProcess K (s.withExtraInfo flag) pid).2 with
      | none => none
      | some s1 => some (finishReport K D s1)
    else some (OpenProcess K (s.withExtraInfo flag) pid).2) = _
  cases ProcessExceptions K D fuel (OpenProcess K (s.withExtraInfo flag) pid).2 <;> rfl

/-- The extra-info flag is carried through the extended capture unread. -/
theorem captureExtended_withExtraInfo (K : Kernel) (s : Sys) (b : Bool) :
    captureExtended K (s.withExtraInfo b) = (captureExtended K s).withExtraInfo b := by
  simp only [captureExtended]
  split_ifs <;> rfl

/-- The extra-info flag is carried through `finishReport` unread, as long as
the predicate `WasSuccessful` of the header does not read it. -/
theorem finishReport_withExtraInfo (K : Kernel) (D : Header) (s : Sys) (b : Bool)
    (hW : ∀ (r : CrashReport) (f : Bool),
      D.WasSuccessful { r with has_extra_info := f } = D.WasSuccessful r) :
    finishReport K D (s.withExtraInfo b) = (finishReport K D s).withExtraInfo b := by
  simp only [finishReport, captureExtended_withExtraInfo]
  have happ : IsApplication ((captureExtended K s).withExtraInfo b).report
      = IsApplication (captureExtended K s).report := rfl
  rw [happ, ← Close_withExtraInfo]
  split_ifs
  · rw [ProcessDyingMessage_withExtraInfo K D _ b hW]
  · rfl

/-- The two runs of `BuildReport` that differ in the extra-info flag only: one
returns exactly when the other does, in the same state but for the stored
flag. -/
theorem BuildReport_withExtraInfo (K : Kernel) (D : Header) (fuel : Nat) (s : Sys)
    (pid : Nat)
    (hW : ∀ (r : CrashReport) (f : Bool),
      D.WasSuccessful { r with has_extra_info := f } = D.WasSuccessful r)
    (b b' : Bool) :
    BuildReport K D fuel s pid b
      = (BuildReport K D fuel s pid b').map (fun t => t.withExtraInfo b) := by
  have h0 : s.withExtraInfo b = (s.withExtraInfo b').withExtraInfo b := rfl
  rw [BuildReport_eq, BuildReport_eq, h0, OpenProcess_withExtraInfo]
  simp only []
  split_ifs
  · rw [ProcessExceptions_withExtraInfo, Option.map_map, Option.map_map]
    congr 1
    funext t
    exact finishReport_withExtraInfo K D t b hW
  · rfl

/-! ## The payload size stays within the capacity -/

/-- `HandleAttachProcess` keeps the stored payload size within the capacity. -/
theorem HandleAttachProcess_bounded (K : Kernel) (D : Header) (s : Sys) (d : DebugEventInfo)
    (h : PayloadBounded D s) : PayloadBounded D (HandleAttachProcess K D s d) := by
  unfold PayloadBounded at h ⊢
  rw [HandleAttachProcess_report]
  split_ifs
  · split
    · split_ifs
      · exact h
      · exact Nat.min_le_right _ _
    · exact h
  · exact h

/-- `HandleException` keeps the stored payload size as it is. -/
theorem HandleException_bounded (K : Kernel) (D : Header) (s : Sys) (d : DebugEventInfo)
    (h : PayloadBounded D s) : PayloadBounded D (HandleException K D s d) := by
  unfold PayloadBounded at h ⊢
  rw [(HandleException_frame K D s d).2.2.2.2.1]
  exact h

/-- The dispatch of one event keeps the stored payload size within the
capacity. -/
theorem dispatchEvent_bounded (K : Kernel) (D : Header) (s : Sys) (d : DebugEventInfo)
    (h : PayloadBounded D s) : PayloadBounded D (dispatchEvent K D s d) := by
  simp only [dispatchEvent]
  split
  · exact HandleAttachProcess_bounded K D s d h
  · exact HandleException_bounded K D s d h
  all_goals exact h

/-- The dispatch of any finite sequence of events keeps the stored payload
size within the capacity. -/
theorem dispatchAll_bounded (K : Kernel) (D : Header) (ds : List DebugEventInfo) (s : Sys)
    (h : PayloadBounded D s) : PayloadBounded D (dispatchAll K D s ds) := by
  induction ds generalizing s with
  | nil => exact h
  | cons d ds ih => exact ih _ (dispatchEvent_bounded K D _ d h)

/-- What `ProcessExceptions` returns, when it returns: the state it started
from when the report is not open, and otherwise the state in which the events
polled are dispatched and the poll that found none is recorded. -/
theorem ProcessExceptions_eq_some (K : Kernel) (D : Header) (fuel : Nat) (s s' : Sys)
    (h : ProcessExceptions K D fuel s = some s') :
    (IsOpen s.report = false ∧ s' = s)
    ∨ (IsOpen s.report = true ∧ (polled K D fuel s).length < fuel
        ∧ s' = (dispatchAll K D s (polled K D fuel s)).log
            (Call.svcGetDebugEvent
              (dispatchAll K D s (polled K D fuel s)).report.debug_handle)) := by
  simp only [ProcessExceptions] at h
  split_ifs at h with ho
  · left
    injection h with h
    exact ⟨by simpa using ho, h.symm⟩
  · right
    rw [pollEvents_eq] at h
    split_ifs at h with hl
    injection h with h
    exact ⟨by simpa using ho, hl, h.symm⟩

/-- C16: the predicate "the stored payload size does not exceed the payload
capacity" is an invariant of the event state machine: `HandleAttachProcess` and
`HandleException` preserve it for every event, hence so does the dispatch of
any finite sequence of events, and it holds in the state `ProcessExceptions`
returns (which it does whenever the kernel runs out of events within the
fuel); and from any state at all, a read that `ProcessDyingMessage` issues is
a read of at most the payload capacity. -/
theorem payload_size_invariant (K : Kernel) (D : Header) (s : Sys) :
    (∀ d, PayloadBounded D s → PayloadBounded D (HandleAttachProcess K D s d))
    ∧ (∀ d, PayloadBounded D s → PayloadBounded D (HandleException K D s d))
    ∧ (∀ ds, PayloadBounded D s → PayloadBounded D (dispatchAll K D s ds))
    ∧ (∀ fuel s', PayloadBounded D s → ProcessExceptions K D fuel s = some s' →
        PayloadBounded D s')
    ∧ (∀ fuel, (polled K D fuel s).length < fuel →
        (ProcessExceptions K D fuel s).isSome = true)
    ∧ (∀ c ∈ issued s (ProcessDyingMessage K D s), ∀ h a n,
        c = Call.svcReadDebugProcessMemory h a n → n ≤ D.dying_message_capacity) := by
  refine ⟨fun d h => HandleAttachProcess_bounded K D s d h,
    fun d h => HandleException_bounded K D s d h,
    fun ds h => dispatchAll_bounded K D ds s h, ?_, ?_, ?_⟩
  · intro fuel s' h hs
    rcases ProcessExceptions_eq_some K D fuel s s' hs with ⟨_, e⟩ | ⟨_, _, e⟩
    · rw [e]; exact h
    · rw [e]; exact dispatchAll_bounded K D (polled K D fuel s) s h
  · intro fuel hlt
    simp only [ProcessExceptions]
    split_ifs
    · rfl
    · exact pollEvents_isSome K D fuel s hlt
  · rw [issued_of_calls (ProcessDyingMessage_calls K D s)]
    intro c hc h a n hcn
    split_ifs at hc with h1 h2 h3 h4 h5
    · simp at hc
    · simp at hc
    · simp at hc
    · simp at hc
    · simp at hc; rw [hc] at hcn; cases hcn
    · simp at hc
      rcases hc with hc | hc
      · rw [hc] at hcn; cases hcn
      · rw [hc] at hcn
        injection hcn with _ _ e
        omega

/-- Witness of C16: from a state that stores the size `0x40`, the dispatch of
an attach event whose control structure declares `0x1064` bytes leaves the
stored size `0x1000`, the capacity. -/
theorem payload_size_invariant_witness :
    (dispatchAll (exKernel true 0 exRegion exMemory) exHeader exDyingSys
        [exAttachEvent]).report.dying_message_size = 0x1000
    ∧ PayloadBounded exHeader (dispatchAll (exKernel true 0 exRegion exMemory) exHeader
        exDyingSys [exAttachEvent]) :=
  ⟨by decide,
   (payload_size_invariant (exKernel true 0 exRegion exMemory) exHeader exDyingSys).2.2.1
      [exAttachEvent] (by unfold PayloadBounded; decide)⟩

/-! ## The result code and the fault record along the event stream -/

/-- C19: the extra-info flag passed to `BuildReport` gates no capture. For
every pid, kernel, starting state and fuel, and a header whose `WasSuccessful`
does not read the flag, the run with the flag set returns exactly when the run
with the flag clear does, and then the two runs have issued the same sequence
of calls and hold reports that are equal in every field but the stored flag,
which is the one passed. -/
theorem BuildReport_flag_independent (K : Kernel) (D : Header) (fuel : Nat) (s : Sys)
    (pid : Nat)
    (hW : ∀ (r : CrashReport) (f : Bool),
      D.WasSuccessful { r with has_extra_info := f } = D.WasSuccessful r) :
    (BuildReport K D fuel s pid true = none ↔ BuildReport K D fuel s pid false = none)
    ∧ ∀ s1 s2, BuildReport K D fuel s pid true = some s1 →
        BuildReport K D fuel s pid false = some s2 →
        s1.calls = s2.calls
        ∧ s1.report = { s2.report with has_extra_info := true }
        ∧ s2.report = { s1.report with has_extra_info := false } := by
  have h1 := BuildReport_withExtraInfo K D fuel s pid hW true false
  have h2 := BuildReport_withExtraInfo K D fuel s pid hW false true
  constructor
  · constructor
    · intro h; rw [h2, h]; rfl
    · intro h; rw [h1, h]; rfl
  · intro s1 s2 e1 e2
    rw [e2, e1] at h1
    rw [e1, e2] at h2
    simp only [Option.map_some', Option.some.injEq] at h1 h2
    refine ⟨?_, ?_, ?_⟩
    · rw [h1]; rfl
    · rw [h1]; rfl
    · rw [h2]; rfl

/-- Witness of C19: on a kernel that delivers an attach event of an
application and a DataAbort, both runs return, with the same calls. -/
theorem BuildReport_flag_independent_witness :
    (BuildReport (streamKernel true [exAttachEvent, exExceptionEvent .DataAbort 0x2010]
        oneThread) exHeader 3 (exSys 0) 0x51 true).isSome = true
    ∧ (BuildReport (streamKernel true [exAttachEvent, exExceptionEvent .DataAbort 0x2010]
        oneThread) exHeader 3 (exSys 0) 0x51 true).map Sys.calls
      = (BuildReport (streamKernel true [exAttachEvent, exExceptionEvent .DataAbort 0x2010]
        oneThread) exHeader 3 (exSys 0) 0x51 false).map Sys.calls := by
  have h := BuildReport_flag_independent
    (streamKernel true [exAttachEvent, exExceptionEvent .DataAbort 0x2010] oneThread)
    exHeader 3 (exSys 0) 0x51 (fun _ _ => rfl)
  refine ⟨by decide, ?_⟩
  cases h1 : BuildReport (streamKernel true [exAttachEvent, exExceptionEvent .DataAbort 0x2010]
      oneThread) exHeader 3 (exSys 0) 0x51 true with
  | none => rw [h.1.1 h1]
  | some s1 =>
    cases h2 : BuildReport (streamKernel true
        [exAttachEvent, exExceptionEvent .DataAbort 0x2010] oneThread) exHeader 3 (exSys 0)
        0x51 false with
    | none => rw [h.1.2 h2] at h1; cases h1
    | some s2 => simp [(h.2 s1 s2 h1 h2).1]

/-! ## End to end: one attach event of a system process -/

/-- `HandleAttachProcess` for a process that is not an application: the
process information is stored and nothing else happens. -/
theorem HandleAttachProcess_not_application (K : Kernel) (D : Header) (s : Sys)
    (d : DebugEventInfo) (happ : d.info.attach_process.is_application = false) :
    HandleAttachProcess K D s d
      = { s with report := { s.report with process_info := d.info.attach_process } } := by
  simp [HandleAttachProcess, IsApplication, happ]

/-- One round of the event loop that polls an event. -/
theorem pollEvents_of_event (K : Kernel) (D : Header) (n : Nat) (s : Sys) (d : DebugEventInfo)
    (hev : K.svcGetDebugEvent s.calls s.report.debug_handle = (0, d)) :
    pollEvents K D (n + 1) s
      = pollEvents K D n
          (dispatchEvent K D (s.log (Call.svcGetDebugEvent s.report.debug_handle)) d) := by
  simp [pollEvents, hev, R_SUCCEEDED]

/-- The round of the event loop that finds no event. -/
theorem pollEvents_of_drained (K : Kernel) (D : Header) (n : Nat) (s : Sys)
    (hend : R_SUCCEEDED (K.svcGetDebugEvent s.calls s.report.debug_handle).1 = false) :
    pollEvents K D (n + 1) s = some (s.log (Call.svcGetDebugEvent s.report.debug_handle)) := by
  simp [pollEvents, hend]

/-- The run of `BuildReport` when the attach succeeds with the handle `h` and
the event stream is one attach event `d` of a process that is not an
application, followed by the poll that finds no event. -/
theorem BuildReport_single_attach (K : Kernel) (D : Header) (fuel : Nat) (s : Sys)
    (pid h : Nat) (flag : Bool) (d : DebugEventInfo)
    (hopen : K.svcDebugActiveProcess s.calls pid = some h)
    (hh : h ≠ INVALID_HANDLE)
    (hev : K.svcGetDebugEvent (s.calls ++ [Call.svcDebugActiveProcess pid]) h = (0, d))
    (hty : d.type = .AttachProcess)
    (happ : d.info.attach_process.is_application = false)
    (hend : R_SUCCEEDED (K.svcGetDebugEvent
        (s.calls ++ [Call.svcDebugActiveProcess pid, Call.svcGetDebugEvent h]) h).1 = false)
    (hfuel : 2 ≤ fuel) :
    BuildReport K D fuel s pid flag
      = some (finishReport K D
          { report := { s.report with
              has_extra_info := flag, debug_handle := h,
              process_info := d.info.attach_process },
            calls := s.calls ++ [Call.svcDebugActiveProcess pid, Call.svcGetDebugEvent h,
              Call.svcGetDebugEvent h] }) := by
  obtain ⟨n, rfl⟩ : ∃ n, fuel = n + 2 := ⟨fuel - 2, by omega⟩
  have ho : OpenProcess K (s.withExtraInfo flag) pid
      = (true, { report := { s.report with has_extra_info := flag, debug_handle := h },
                 calls := s.calls ++ [Call.svcDebugActiveProcess pid] }) := by
    simp [OpenProcess, Sys.withExtraInfo, Sys.log, hopen]
  have hd : dispatchEvent K D
      { report := { s.report with has_extra_info := flag, debug_handle := h },
        calls := s.calls ++ [Call.svcDebugActiveProcess pid, Call.svcGetDebugEvent h] } d
      = { report := { s.report with
              has_extra_info := flag, debug_handle := h,
              process_info := d.info.attach_process },
          calls := s.calls ++ [Call.svcDebugActiveProcess pid, Call.svcGetDebugEvent h] } := by
    simp only [dispatchEvent, hty]
    exact HandleAttachProcess_not_application K D _ d happ
  rw [BuildReport_eq, ho]
  simp only [if_true, ProcessExceptions]
  have hio : IsOpen ({ s.report with has_extra_info := flag, debug_handle := h } : CrashReport)
      = true := by simp [IsOpen, hh]
  rw [hio]
  simp only [Bool.not_true, Bool.false_eq_true, if_false]
  rw [pollEvents_of_event K D (n + 1) _ d hev]
  simp only [Sys.log, List.append_assoc, List.singleton_append]
  rw [hd, pollEvents_of_drained K D n _ hend]
  simp [Sys.log]

/-- C14 as stated fails with the capability present: after the single attach
event of a system process, `BuildReport` enumerates the threads of the target
(line 53), and on a kernel whose enumeration captures one thread the roster of
the report holds that thread: it is not empty. -/
theorem BuildReport_scenario_A_counterexample :
    ¬ ∀ (K : Kernel) (D : Header) (fuel : Nat) (s : Sys) (pid h : Nat) (flag : Bool)
        (d : DebugEventInfo),
        K.svcDebugActiveProcess s.calls pid = some h → h ≠ INVALID_HANDLE →
        K.svcGetDebugEvent (s.calls ++ [Call.svcDebugActiveProcess pid]) h = (0, d) →
        d.type = .AttachProcess → d.info.attach_process.is_application = false →
        R_SUCCEEDED (K.svcGetDebugEvent
          (s.calls ++ [Call.svcDebugActiveProcess pid, Call.svcGetDebugEvent h]) h).1 = false →
        2 ≤ fuel → s.report.thread_list = ThreadList.empty →
        ∃ s', BuildReport K D fuel s pid flag = some s'
          ∧ s'.report.process_info = d.info.attach_process
          ∧ s'.report.result = s.report.result
          ∧ s'.report.thread_list.thread_count = 0
          ∧ s'.report.dying_message_address = s.report.dying_message_address
          ∧ s'.report.dying_message_size = s.report.dying_message_size
          ∧ s'.report.dying_message = s.report.dying_message
          ∧ ∀ c ∈ issued s s', c.isRead = false := by
  intro h
  obtain ⟨s', hs', _, _, hcount, _⟩ := h (streamKernel true [exSystemAttachEvent] oneThread)
    exHeader 2 (exSys 0) 0x51 0x80 false exSystemAttachEvent rfl (by decide) rfl rfl rfl
    (by decide) (le_refl 2) rfl
  have hrun : BuildReport (streamKernel true [exSystemAttachEvent] oneThread) exHeader 2
      (exSys 0) 0x51 false ≠ none := by decide
  cases hb : BuildReport (streamKernel true [exSystemAttachEvent] oneThread) exHeader 2
      (exSys 0) 0x51 false with
  | none => exact hrun hb
  | some t =>
    have ht : t.report.thread_list.thread_count = 1 := by
      have h1 : (BuildReport (streamKernel true [exSystemAttachEvent] oneThread) exHeader 2
          (exSys 0) 0x51 false).map (fun u => u.report.thread_list.thread_count) = some 1 := by
        decide
      rw [hb] at h1
      simpa using h1
    rw [hb] at hs'
    injection hs' with hs'
    rw [← hs', ht] at hcount
    cases hcount

/-- C14, amended: when the attach succeeds and the event stream is exactly one
AttachProcess event of a process that is not an application, followed by the
poll that finds no event, `BuildReport` returns (for any fuel of at least two
polls and either state of the capability) a report whose process information
is the one of the event, whose result code is the one before the call, and
whose payload descriptor and payload buffer are untouched; no payload read is
issued (the report builder issues no `svcReadDebugProcessMemory` of its own).
With the capability absent the roster and the code list are the ones before
the call (the roster is empty for a fresh report) and the calls are the attach,
the two polls and the close. With the capability present the code list is the
one `ReadCodeRegionsFromProcess` captures and the roster is the one
`ReadThreadsFromProcess` captures after it. In both cases the whole report is
given: the session is closed and the flag is the one passed. -/
theorem BuildReport_scenario_A (K : Kernel) (D : Header) (fuel : Nat) (s : Sys)
    (pid h : Nat) (flag : Bool) (d : DebugEventInfo)
    (hopen : K.svcDebugActiveProcess s.calls pid = some h)
    (hh : h ≠ INVALID_HANDLE)
    (hev : K.svcGetDebugEvent (s.calls ++ [Call.svcDebugActiveProcess pid]) h = (0, d))
    (hty : d.type = .AttachProcess)
    (happ : d.info.attach_process.is_application = false)
    (hend : R_SUCCEEDED (K.svcGetDebugEvent
        (s.calls ++ [Call.svcDebugActiveProcess pid, Call.svcGetDebugEvent h]) h).1 = false)
    (hfuel : 2 ≤ fuel) :
    ∃ s', BuildReport K D fuel s pid flag = some s'
      ∧ s'.report.process_info = d.info.attach_process
      ∧ s'.report.result = s.report.result
      ∧ s'.report.dying_message_address = s.report.dying_message_address
      ∧ s'.report.dying_message_size = s.report.dying_message_size
      ∧ s'.report.dying_message = s.report.dying_message
      ∧ (∀ c ∈ issued s s', c.isRead = false)
      ∧ (K.kernelAbove500 = false →
          s'.report.thread_list = s.report.thread_list
          ∧ s'.report.code_list = s.report.code_list
          ∧ s'.report = { s.report with
              has_extra_info := flag, debug_handle := INVALID_HANDLE,
              process_info := d.info.attach_process }
          ∧ issued s s' = [Call.svcDebugActiveProcess pid, Call.svcGetDebugEvent h,
              Call.svcGetDebugEvent h, Call.svcCloseHandle h])
      ∧ (K.kernelAbove500 = true →
          s'.report.thread_list
            = K.ReadThreadsFromProcess
                (s.calls ++ [Call.svcDebugActiveProcess pid, Call.svcGetDebugEvent h,
                  Call.svcGetDebugEvent h,
                  Call.ReadCodeRegionsFromProcess h s.report.crashed_thread_info.GetPC
                    s.report.crashed_thread_info.GetLR])
                s.report.thread_list h d.info.attach_process.is_64_bit
          ∧ s'.report.code_list
            = K.ReadCodeRegionsFromProcess
                (s.calls ++ [Call.svcDebugActiveProcess pid, Call.svcGetDebugEvent h,
                  Call.svcGetDebugEvent h])
                s.report.code_list h s.report.crashed_thread_info.GetPC
                s.report.crashed_thread_info.GetLR
          ∧ s'.report = { s.report with
              has_extra_info := flag, debug_handle := INVALID_HANDLE,
              process_info := d.info.attach_process,
              code_list := K.ReadCodeRegionsFromProcess
                (s.calls ++ [Call.svcDebugActiveProcess pid, Call.svcGetDebugEvent h,
                  Call.svcGetDebugEvent h])
                s.report.code_list h s.report.crashed_thread_info.GetPC
                s.report.crashed_thread_info.GetLR,
              thread_list := K.ReadThreadsFromProcess
                (s.calls ++ [Call.svcDebugActiveProcess pid, Call.svcGetDebugEvent h,
                  Call.svcGetDebugEvent h,
                  Call.ReadCodeRegionsFromProcess h s.report.crashed_thread_info.GetPC
                    s.report.crashed_thread_info.GetLR])
                s.report.thread_list h d.info.attach_process.is_64_bit }
          ∧ issued s s' = [Call.svcDebugActiveProcess pid, Call.svcGetDebugEvent h,
              Call.svcGetDebugEvent h,
              Call.ReadCodeRegionsFromProcess h s.report.crashed_thread_info.GetPC
                s.report.crashed_thread_info.GetLR,
              Call.ReadThreadsFromProcess h d.info.attach_process.is_64_bit,
              Call.svcCloseHandle h]) := by
  refine ⟨_, BuildReport_single_attach K D fuel s pid h flag d hopen hh hev hty happ hend hfuel,
    ?_⟩
  have hh' : ¬ h = 0 := hh
  by_cases hc : K.kernelAbove500 = true
  · simp [finishReport, captureExtended, Close, IsApplication, IsOpen, Is64Bit, happ, hc, hh',
      INVALID_HANDLE, issued, Call.isRead]
  · simp [finishReport, captureExtended, Close, IsApplication, IsOpen, Is64Bit, happ, hc, hh',
      INVALID_HANDLE, issued, Call.isRead]

/-- Witness of C14 amended: on a kernel that delivers one attach event of a
system process, `BuildReport` returns a report that holds the process
information of the event and the initial result code `0xC6A8`; without the
capability the roster stays empty, with the capability it is the one thread
the enumeration captures. -/
theorem BuildReport_scenario_A_witness :
    (∃ s', BuildReport (streamKernel false [exSystemAttachEvent] oneThread) exHeader 2
        (exSys 0) 0x51 true = some s'
      ∧ s'.report.process_info = exSystemAttachEvent.info.attach_process
      ∧ s'.report.result = 0xC6A8
      ∧ s'.report.thread_list = ThreadList.empty)
    ∧ (∃ s', BuildReport (streamKernel true [exSystemAttachEvent] oneThread) exHeader 2
        (exSys 0) 0x51 true = some s'
      ∧ s'.report.process_info = exSystemAttachEvent.info.attach_process
      ∧ s'.report.result = 0xC6A8
      ∧ s'.report.thread_list = oneThread
      ∧ s'.report.code_list = (exSys 0).report.code_list) := by
  obtain ⟨s', hs', hp, hr, _, _, _, _, hoff, _⟩ :=
    BuildReport_scenario_A (streamKernel false [exSystemAttachEvent] oneThread) exHeader 2
      (exSys 0) 0x51 0x80 true exSystemAttachEvent rfl (by decide) rfl rfl rfl (by decide)
      (le_refl 2)
  obtain ⟨t', ht', hp', hr', _, _, _, _, _, hon⟩ :=
    BuildReport_scenario_A (streamKernel true [exSystemAttachEvent] oneThread) exHeader 2
      (exSys 0) 0x51 0x80 true exSystemAttachEvent rfl (by decide) rfl rfl rfl (by decide)
      (le_refl 2)
  exact ⟨⟨s', hs', hp, hr, (hoff rfl).1⟩, ⟨t', ht', hp', hr', (hon rfl).1, (hon rfl).2.1⟩⟩

end Creport
